import Mathlib

/-!
Verification development for the grayjay-plugin-librivox repository.

The JavaScript source is shallowly embedded: pure helpers become Lean
functions over `String`/`List Char`; JSON values already parsed by the
host are represented by their denotations (structures with `Option`
fields for possibly-absent members); the blocking HTTP transport is an
explicit environment mapping request URLs to responses, and every
function that issues requests also returns the list of URLs it
requested; JavaScript exceptions become `Except`.

The repository contains several superseded full-file revisions of the
plugin.  Namespace `Rev1` embeds the first revision inside
LibriVoxScript.js, `Rev2` the second (final) revision in that file,
`P0` the early revision in src/unnamed/part_000 and `P1` the revision
in src/unnamed/part_001.
-/

namespace LibriVox

/-- Model of a JavaScript exception (`ScriptException` / `Error`). -/
inductive Err where
  | script (msg : String)
deriving DecidableEq, Repr

/-- An HTTP response whose body has already been run through
`JSON.parse` (or the DOM parser): `body = none` models a body on which
`JSON.parse` throws (malformed), `body = some v` a body denoting `v`. -/
structure HttpResp (α : Type) where
  isOk : Bool
  code : Int
  body : Option α
deriving Repr

/-- Truthiness of a possibly-absent JavaScript string:
`undefined`, `null` and the empty string are falsy. -/
def sTruthy : Option String → Bool
  | none => false
  | some s => s ≠ ""

/-- JavaScript `a || d` for a possibly-absent string `a` and a string
default `d`. -/
def orDefault (a : Option String) (d : String) : String :=
  match a with
  | some s => if s = "" then d else s
  | none => d

/-- JavaScript template interpolation of a possibly-absent value:
an `undefined` value prints as the literal text "undefined". -/
def tmpl (a : Option String) : String :=
  match a with
  | some s => s
  | none => "undefined"

/-- Split a character list at every occurrence of the separator, as
JavaScript `String.prototype.split` with a one-character separator. -/
def splitOnChar (sep : Char) : List Char → List (List Char)
  | [] => [[]]
  | c :: rest =>
    let r := splitOnChar sep rest
    if c = sep then [] :: r
    else
      match r with
      | h :: t => (c :: h) :: t
      | [] => [[c]]

/-- Embeds `String`-level wrapper around `splitOnChar`. -/
def jsSplit (s : String) (sep : Char) : List String :=
  (splitOnChar sep s.toList).map (fun cs => String.mk cs)

/-- Whitespace test used by JavaScript trimming. -/
def isWs (c : Char) : Bool := c.isWhitespace

/-- JavaScript `String.prototype.trim` (leading and trailing
whitespace removed). -/
def jsTrim (s : String) : String :=
  String.mk ((((s.toList.dropWhile isWs).reverse).dropWhile isWs).reverse)

/-- Embeds `textContent?.trim() || d`: trim an optional string, falling back
to the default when the element is absent or the trimmed text empty. -/
def textOr (t : Option String) (d : String) : String :=
  match t with
  | some s => let s := jsTrim s; if s = "" then d else s
  | none => d

/-- Value of a maximal leading decimal-digit run; `none` when the list
does not start with a digit. -/
def digitsVal (cs : List Char) : Option Nat :=
  let ds := cs.takeWhile Char.isDigit
  if ds.isEmpty then none
  else some (ds.foldl (fun acc c => acc * 10 + (c.toNat - 48)) 0)

/-- JavaScript `parseInt(s, 10)`: skip leading whitespace, read an
optional sign and then a maximal digit prefix; `none` models `NaN`. -/
def jsParseInt (s : String) : Option Int :=
  match s.toList.dropWhile isWs with
  | '-' :: rest => (digitsVal rest).map (fun n => -(n : Int))
  | '+' :: rest => (digitsVal rest).map (fun n => (n : Int))
  | cs => (digitsVal cs).map (fun n => (n : Int))

/-- Embeds `timeToSeconds` from LibriVoxScript.js (lines 922-940 and
2550-2568, both revisions are identical).  The argument is `none` when
the JavaScript value is not a non-empty string (the falsiness and
typeof guard also rejects the empty string). -/
def timeToSeconds : Option String → Int
  | none => 0
  | some t =>
    if t = "" then 0
    else
      let parts := (jsSplit t ':').map (fun p => (jsParseInt p).getD 0)
      match parts with
      | [h, m, s] => h * 3600 + m * 60 + s
      | [m, s] => m * 60 + s
      | _ => 0

/-- Embeds `extractId`: first match of the pattern `[?&]id=([^&]+)` in the
URL, i.e. the first non-empty run of non-`&` characters following a
`?id=` or `&id=` marker. -/
def extractIdAux : List Char → Option String
  | [] => none
  | c :: rest =>
    if (c = '?' ∨ c = '&') ∧ rest.take 3 = ['i', 'd', '='] then
      let cap := (rest.drop 3).takeWhile (fun d => d ≠ '&')
      if cap.isEmpty then extractIdAux rest else some (String.mk cap)
    else extractIdAux rest

/-- Embeds `extractId(url)` from LibriVoxScript.js: `null` for a null URL or
when the pattern does not occur. -/
def extractId : Option String → Option String
  | none => none
  | some url => extractIdAux url.toList

/-- First truthy string in the chain, else the default: models the
JavaScript expression `x1 || x2 || ... || d`. -/
def jsOrChain (xs : List (Option String)) (d : String) : String :=
  match xs with
  | [] => d
  | x :: rest =>
    match x with
    | some s => if s = "" then jsOrChain rest d else s
    | none => jsOrChain rest d

/-- JavaScript loose equality `==` restricted to two identifier values
that are both absent or both (string-rendered) primitives:
`undefined == undefined` is true, `undefined == v` is false. -/
def jsEq : Option String → Option String → Bool
  | none, none => true
  | some a, some b => a = b
  | _, _ => false

/-- Substring test over character lists. -/
def containsSub (pat : List Char) : List Char → Bool
  | [] => pat.isEmpty
  | c :: rest => pat.isPrefixOf (c :: rest) || containsSub pat rest

/-- Embeds `REGEX.COLLECTION` = `^https://librivox\.org/.*collection.*/$`:
the URL starts with the site prefix, ends in a slash, and contains
"collection" after the prefix. -/
def isCollectionUrl (s : Option String) : Bool :=
  match s with
  | none => false
  | some s =>
    let cs := s.toList
    let p := "https://librivox.org/".toList
    p.isPrefixOf cs && cs.getLast? = some '/' && containsSub "collection".toList (cs.drop p.length)

/-- Shared tail matcher for the author/reader channel regexes: a
non-empty digit run, optionally followed by `?` and query characters
containing neither `#` nor whitespace, then end of string. -/
def matchChannelTail (cs : List Char) : Option String :=
  let ds := cs.takeWhile Char.isDigit
  if ds.isEmpty then none
  else
    match cs.drop ds.length with
    | [] => some (String.mk ds)
    | '?' :: q => if q.all (fun c => c ≠ '#' ∧ ¬ isWs c) then some (String.mk ds) else none
    | _ => none

/-- Try each of the scheme/www prefix alternatives of the channel
regexes in turn, then match the digit tail. -/
def matchChannelUrl (kind : String) (url : String) : Option String :=
  let tails := ["https://librivox.org/" ++ kind ++ "/",
                "https://www.librivox.org/" ++ kind ++ "/",
                "http://librivox.org/" ++ kind ++ "/",
                "http://www.librivox.org/" ++ kind ++ "/"]
  let cs := url.toList
  (tails.filterMap (fun p =>
    let pcs := p.toList
    if pcs.isPrefixOf cs then matchChannelTail (cs.drop pcs.length) else none)).head?

/-- Embeds `extractChannelId`: first capture group of `REGEX.AUTHOR_CHANNEL`
(`^https?://(www\.)?librivox\.org/author/(\d+)(\?[^#\s]*)?$`). -/
def extractChannelId (url : Option String) : Option String :=
  match url with
  | none => none
  | some u => if u = "" then none else matchChannelUrl "author" u

/-- Embeds `extractReaderIdFromUrl`: first capture group of
`REGEX.READER_CHANNEL`. -/
def extractReaderIdFromUrl (url : Option String) : Option String :=
  match url with
  | none => none
  | some u => if u = "" then none else matchChannelUrl "reader" u

/-- Match `REGEX.ARCHIVE_ORG_DETAILS`
(`https://(www\.)?archive\.org/details/([^/]+)`) at the head of the
character list. -/
def archiveMatchAt (cs : List Char) : Option String :=
  let try1 := "https://archive.org/details/".toList
  let try2 := "https://www.archive.org/details/".toList
  let attempt := fun (p : List Char) =>
    if p.isPrefixOf cs then
      let cap := (cs.drop p.length).takeWhile (fun c => c ≠ '/')
      if cap.isEmpty then none else some (String.mk cap)
    else none
  match attempt try1 with
  | some r => some r
  | none => attempt try2

/-- Unanchored search for the archive.org details pattern. -/
def extractArchiveIdAux : List Char → Option String
  | [] => none
  | c :: rest =>
    match archiveMatchAt (c :: rest) with
    | some r => some r
    | none => extractArchiveIdAux rest

/-- Embeds `book?.url_iarchive?.match(REGEX.ARCHIVE_ORG_DETAILS)` reduced to
its first capture group. -/
def extractArchiveId (url : Option String) : Option String :=
  match url with
  | none => none
  | some u => extractArchiveIdAux u.toList

/-- Characters `encodeURIComponent` leaves unescaped. -/
def isUnreservedURIChar (c : Char) : Bool :=
  c.isAlphanum || c = '-' || c = '_' || c = '.' || c = '!' || c = '~' || c = '*' ||
    c.toNat = 39 || c = '(' || c = ')'

/-- Upper-case hex digit. -/
def hexDigit (n : Nat) : Char :=
  if n < 10 then Char.ofNat (48 + n) else Char.ofNat (55 + n)

/-- Embeds `encodeURIComponent` for ASCII input (the only inputs the model is
evaluated on); other characters are percent-encoded bytewise. -/
def encodeURIComponent (s : String) : String :=
  String.mk (s.toList.foldr
    (fun c acc =>
      (if isUnreservedURIChar c then [c]
       else ['%', hexDigit (c.toNat / 16 % 16), hexDigit (c.toNat % 16)]) ++ acc) [])

/-- Join strings with a separator (the `join('&')` step of
`objectToUrlEncodedString`). -/
def strJoin (sep : String) : List String → String
  | [] => ""
  | [x] => x
  | x :: rest => x ++ sep ++ strJoin sep rest

/-- Embeds `objectToUrlEncodedString` applied to an object literal, given as
its key/value pairs in insertion order. -/
def objectToUrlEncodedString (pairs : List (String × String)) : String :=
  strJoin "&" (pairs.map (fun kv => encodeURIComponent kv.1 ++ "=" ++ encodeURIComponent kv.2))

/-- Embeds `x || d` for an optional numeric field rendered as `Nat` (`0` is
falsy, absence is falsy). -/
def limitOr (n : Option Nat) (d : Nat) : Nat :=
  match n with
  | some k => if k = 0 then d else k
  | none => d

/-- All-or-nothing sequencing of possibly-null array entries: `none`
models a thrown `TypeError` from reading a property of a null entry. -/
def seqSomes : List (Option α) → Option (List α)
  | [] => some []
  | none :: _ => none
  | some a :: rest => (seqSomes rest).map (fun r => a :: r)

/-- JavaScript `String.prototype.toLowerCase` (ASCII model). -/
def jsToLower (s : String) : String :=
  String.mk (s.toList.map Char.toLower)

-- ====================== Shared record shapes ======================

/-- One entry of an `authors` array in a feed/listing record (JSON
denotation; numeric ids are rendered as decimal strings, and no
catalogue id is the JS-falsy number 0). -/
structure BookAuthor where
  first_name : Option String
  last_name : Option String
  id : Option String
  author : Option String
  imageurl : Option String
deriving DecidableEq, Repr

/-- The fallback author object whose name, id and author fields are
all the empty string, used when a record has no authors. -/
def defaultBookAuthor : BookAuthor :=
  { first_name := some "", last_name := some "", id := some "", author := some "",
    imageurl := none }

/-- A listing/feed book record as consumed by `audiobookToPlaylist`
(fields that no call site reads are omitted); `sections` only
contributes its length. -/
structure BookRec where
  id : Option String
  title : Option String
  url_librivox : Option String
  coverart_thumbnail : Option String
  coverart_jpg : Option String
  authors : List BookAuthor
  sections : Option (List Unit)
deriving DecidableEq, Repr

/-- Parsed body of a listing endpoint: `{ books: ... }` where the
array may be absent and entries may be null. -/
structure ListBody where
  books : Option (List (Option BookRec))
deriving Repr

/-- Embeds `PlatformPlaylist` restricted to the fields the plugin sets:
`idv` is `id.value` of the `PlatformID`. -/
structure PlatformPlaylist where
  idv : String
  authorName : String
  authorUrl : String
  authorThumb : String
  name : String
  thumbnail : String
  videoCount : Int
  url : String
deriving DecidableEq, Repr

/-- Default image constants of the final revision. -/
def defaultBookCover : String :=
  "https://plugins.grayjay.app/LibriVox/assets/default-book-cover.png"

def defaultAuthorAvatar : String :=
  "https://plugins.grayjay.app/LibriVox/LibriVoxIcon.png"

def authorBase : String := "https://librivox.org/author"

def readerBase : String := "https://librivox.org/reader"

/-- Placeholder text of a host JSON.parse error message (the exact
text is environment-dependent and never inspected by the plugin). -/
def jsonParseErrMsg : String := "Unexpected token in JSON"

/-- Associative lookup, modelling a JavaScript object used as a map. -/
def lookup (m : List (String × α)) (k : String) : Option α :=
  (m.find? (fun kv => kv.1 = k)).map (fun kv => kv.2)

/-- Associative update `m[k] = v` (replace an existing binding in
place, else append, as JavaScript object assignment). -/
def assocSet (m : List (String × α)) (k : String) (v : α) : List (String × α) :=
  match m with
  | [] => [(k, v)]
  | kv :: rest => if kv.1 = k then (k, v) :: rest else kv :: assocSet rest k v

/-- Membership-preserving set insertion, modelling `Set.prototype.add`
on a `Set` represented by its insertion-ordered element list. -/
def setAdd (s : List String) (v : String) : List String :=
  if s.contains v then s else s ++ [v]

/-- Embeds `new Set(array)`: keep the first occurrence of each element. -/
def dedupFirst (seen : List String) : List String → List String
  | [] => []
  | x :: rest =>
    if seen.contains x then dedupFirst seen rest
    else x :: dedupFirst (x :: seen) rest

/-- Embeds `new Set(array)` as a list-represented set. -/
def jsNewSet (l : List String) : List String := dedupFirst [] l

/-- Embeds `audiobookToPlaylist` of the final revision (LibriVoxScript.js
lines 2428-2458; src/unnamed/part_001 lines 1243-1273 is identical):
`none` for a null/undefined record, otherwise a playlist whose id
falls back from `book.id` to the id extracted from the URL to empty. -/
def audiobookToPlaylist : Option BookRec → Option PlatformPlaylist
  | none => none
  | some book =>
    let author := (book.authors.head?).getD defaultBookAuthor
    let combined_name :=
      if sTruthy author.first_name || sTruthy author.last_name then
        jsTrim (orDefault author.first_name "" ++ " " ++ orDefault author.last_name "")
      else ""
    let author_name := jsOrChain [author.author, some combined_name] "Unknown Author"
    let author_url :=
      if sTruthy author.id then authorBase ++ "/" ++ author.id.getD "" else ""
    let imageurl := orDefault author.imageurl defaultAuthorAvatar
    let bookId := jsOrChain [book.id, extractId book.url_librivox] ""
    some
      { idv := bookId
        authorName := author_name
        authorUrl := author_url
        authorThumb := imageurl
        name := orDefault book.title "Unknown Title"
        thumbnail := jsOrChain [book.coverart_thumbnail, book.coverart_jpg] defaultBookCover
        videoCount :=
          match book.sections with
          | some l => if l.length = 0 then -1 else (l.length : Int)
          | none => -1
        url := "https://grayjay.internal/librivox/book?id=" ++ bookId }

-- ====================== Detail-resolution record shapes ======================

/-- One reader entry of a section in the details API response. -/
structure ApiReader where
  display_name : Option String
  id : Option String
  reader_id : Option String
deriving DecidableEq, Repr

/-- One section of a book in the details API response. -/
structure ApiSection where
  id : Option String
  title : Option String
  listen_url : Option String
  playtime : Option String
  readers : List ApiReader
deriving DecidableEq, Repr

/-- One author entry of a book in the details API response. -/
structure ApiAuthor where
  first_name : Option String
  last_name : Option String
  id : Option String
  imageurl : Option String
deriving DecidableEq, Repr

/-- A book object of the details API response; `sections = none`
models a response missing the `sections` array (reading `.map` of it
throws). -/
structure ApiBook where
  title : Option String
  description : Option String
  url_iarchive : Option String
  coverart_thumbnail : Option String
  coverart_jpg : Option String
  authors : List ApiAuthor
  sections : Option (List ApiSection)
deriving DecidableEq, Repr

/-- Parsed body of the details endpoint (`?.books?.[0]`). -/
structure ApiBody where
  books : Option (List (Option ApiBook))
deriving Repr

/-- Archive.org views entry for the queried identifier; the response
body is `none` on malformed JSON, `some none` when the identifier key
is absent. -/
structure ArchiveEntry where
  have_data : Bool
  all_time : Int
deriving DecidableEq, Repr

/-- One row of the `.chapter-download tbody`, reduced to the values
the structural DOM queries of the plugin extract from it. -/
structure ChapterRowDom where
  nameText : Option String
  nameHref : Option String
  tdTexts : List (Option String)
  readerLinks : List (Option String × Option String)
deriving DecidableEq, Repr

/-- The book page DOM reduced to the query results the plugin reads
(the HTML structural-query capability is a specified external
collaborator; parsing never throws, so a garbage page simply yields
empty query results). -/
structure BookPageDom where
  authorLinks : List (Option String × Option String)
  coverSrc : Option String
  chapterRows : List ChapterRowDom
  titleText : Option String
  descriptionText : Option String
deriving DecidableEq, Repr

/-- An HTML page response (no parse failure mode: the DOM parser is
total). -/
structure HtmlResp where
  isOk : Bool
  code : Int
  dom : BookPageDom
deriving Repr

/-- Embeds `searchParams.get(key)` of `new URL(url)`, for URLs without a
fragment (no plugin URL carries one). -/
def searchParamGet (url key : String) : Option String :=
  match jsSplit url '?' with
  | [] => none
  | [_] => none
  | _ :: qs =>
    let query := strJoin "?" qs
    let pairs := jsSplit query '&'
    (pairs.filterMap (fun p =>
      if p = key then some ""
      else
        let pref := key ++ "="
        if pref.toList.isPrefixOf p.toList then
          some (String.mk (p.toList.drop pref.toList.length))
        else none)).head?

/-- JavaScript `ToNumber` on a string, restricted to the optionally
signed integer literals the plugin compares with (`""` converts to 0;
`none` models NaN). -/
def jsToNumber (s : String) : Option Int :=
  let t := jsTrim s
  if t = "" then some 0
  else
    match t.toList with
    | '-' :: rest => if rest ≠ [] ∧ rest.all Char.isDigit then (digitsVal rest).map (fun n => -(n : Int)) else none
    | '+' :: rest => if rest ≠ [] ∧ rest.all Char.isDigit then (digitsVal rest).map (fun n => (n : Int)) else none
    | cs => if cs.all Char.isDigit then (digitsVal cs).map (fun n => (n : Int)) else none

/-- Loose equality `c.chapterId == chapterId` between the numeric
chapter index and the string (or null) query parameter. -/
def looseEqIdx (n : Nat) (p : Option String) : Bool :=
  match p with
  | none => false
  | some s => jsToNumber s = some (n : Int)

/-- Template interpolation of a possibly-null value (`null` prints as
"null"). -/
def tmplNull (a : Option String) : String :=
  match a with
  | some s => s
  | none => "null"

/-- An audio source descriptor: the plugin builds `AudioUrlSource` and
`HLSSource` values. -/
inductive Source where
  | audioUrl (name container codec url : String) (duration : Int)
  | hls (name url : String) (duration : Int)
deriving DecidableEq, Repr

/-- Normalised author reference stored in book details. -/
structure AuthorRef where
  id : Option String
  name : String
  url : String
deriving DecidableEq, Repr

/-- Normalised reader reference stored in a chapter. -/
structure ReaderRef where
  name : String
  url : String
  id : Option String
deriving DecidableEq, Repr

/-- A formatted author record as produced by `formatAuthorData` and
stored in `state.authors` (`estimatedAge = none` collapses the JS
`undefined`/`null` cases, which no claim distinguishes). -/
structure AuthorData where
  authorThumbnailUrl : String
  description : String
  id : Option String
  dob : Option String
  dod : Option String
  first_name : String
  last_name : String
  url : String
  name : String
  displayName : String
  estimatedAge : Option Int
  displayEstimatedAge : String
deriving DecidableEq, Repr

namespace Rev2

/-!
Embedding of the second (final) revision inside src/LibriVoxScript.js
(lines 1086-2702 of the concatenated file).
-/

/-- Formatted chapter data of the final revision (`formatChapterData`,
lines 2404-2421). -/
structure Chapter where
  section_id : Option String
  chapterId : Nat
  chapterName : String
  chapterFile : String
  duration : Int
  readers : List ReaderRef
deriving DecidableEq, Repr

/-- Cached/returned book details of the final revision. -/
structure Details where
  viewCount : Int
  title : String
  description : String
  authorThumbnailUrl : String
  authorName : String
  authorUrl : String
  authors : List AuthorRef
  bookCoverUrl : String
  chapters : List Chapter
deriving DecidableEq, Repr

/-- Reader information as returned by `fetchReaderInfo` (lines
1854-1937); the transport-failure fallback object carries only `name`
and `bookCount`, so the other fields are optional. -/
structure ReaderInfo where
  name : String
  catalogName : Option String
  forumName : Option String
  totalSections : Option Int
  totalMatches : Option Int
  description : Option String
  bookCount : Int
deriving DecidableEq, Repr

/-- The global plugin state of the final revision.  `enable` restores
the whole parsed JSON blob, so a state loaded from a legacy blob can
also carry an `audiobookDetails` map; no final-revision function reads
or writes that map. -/
structure State where
  audiobookDetails : List (String × Details)
  authors : List AuthorData
  readers : List (String × ReaderInfo)
  latestReleaseIds : List String
deriving DecidableEq, Repr

/-- The initial value of the module-level `state` literal. -/
def initialState : State :=
  { audiobookDetails := [], authors := [], readers := [], latestReleaseIds := [] }

/-- Embeds `formatChapterData(s, idx)` (lines 2404-2421). -/
def formatChapterData (s : ApiSection) (idx : Nat) : Chapter :=
  let formattedReaders := s.readers.map (fun reader =>
    { name := orDefault reader.display_name ""
      id := some (jsOrChain [reader.id, reader.reader_id] "")
      url :=
        if sTruthy reader.id || sTruthy reader.reader_id then
          readerBase ++ "/" ++ jsOrChain [reader.id, reader.reader_id] ""
        else "" : ReaderRef })
  { section_id := s.id
    chapterId := idx
    chapterName := orDefault s.title ("Chapter " ++ toString (idx + 1))
    chapterFile := orDefault s.listen_url ""
    duration := (s.playtime.bind jsParseInt).getD 0
    readers := formattedReaders }

/-- The network environment of detail resolution: each field is the
blocking GET of one collaborator endpoint, keyed by the request URL. -/
structure DetailsEnv where
  get : String → HttpResp ApiBody
  archive : String → HttpResp (Option ArchiveEntry)
  html : String → HtmlResp

/-- Embeds `URLS.API_AUDIOBOOKS_DETAILS` with the id placeholder replaced. -/
def apiDetailsUrl (id : String) : String :=
  "https://librivox-api.openaudiobooks.org/api/feed/audiobooks/id/" ++ id ++
    "?format=json&extended=1&coverart=1"

/-- Embeds `URLS.ARCHIVE_VIEWS` with the identifier appended. -/
def archiveViewsUrl (iid : String) : String :=
  "https://be-api.us.archive.org/views/v1/short/" ++ iid

/-- Proxy stream base of the v2 API. -/
def proxyBase : String := "https://librivox-api.openaudiobooks.org/api/v2/proxy/"

/-- Embeds `fetchViewCount(iarchive_id)` (lines 2256-2269): `-1` on transport
failure, malformed JSON, absent key, absent data or a zero count. -/
def fetchViewCount (env : DetailsEnv) (iid : String) : Int × List String :=
  let r := env.archive (archiveViewsUrl iid)
  let v :=
    if r.isOk then
      match r.body with
      | none => -1
      | some entry =>
        match entry with
        | some e => if e.have_data then (if e.all_time = 0 then -1 else e.all_time) else -1
        | none => -1
    else -1
  (v, [archiveViewsUrl iid])

/-- Embeds `fetchAudiobookDetailsFromApi(audioBookId, url)` (lines
2187-2249).  A non-success status throws outside the try block; a
parse failure, missing book, or missing `sections` array throws inside
it and is rethrown with the "Failed to parse" prefix.  There is no
HTML fallback. -/
def fetchAudiobookDetailsFromApi (env : DetailsEnv) (audioBookId : String) :
    Except Err Details × List String :=
  let apiUrl := apiDetailsUrl audioBookId
  let res := env.get apiUrl
  if ¬ res.isOk then
    (.error (Err.script ("Failed to fetch audiobook details: " ++ toString res.code)), [apiUrl])
  else
    match res.body with
    | none =>
      (.error (Err.script ("Failed to parse audiobook details: " ++ jsonParseErrMsg)), [apiUrl])
    | some body =>
      match ((body.books.getD []).head?).join with
      | none =>
        (.error (Err.script
          "Failed to parse audiobook details: No book data found in API response"), [apiUrl])
      | some book =>
        let iarchive := extractArchiveId book.url_iarchive
        let (viewCount, archLog) :=
          match iarchive with
          | some iid => fetchViewCount env iid
          | none => (-1, [])
        let authors := book.authors
        let primary :=
          match authors.head? with
          | some primaryAuthor =>
            (jsOrChain
               [some (jsTrim (orDefault primaryAuthor.first_name "" ++ " " ++
                  orDefault primaryAuthor.last_name ""))] "Unknown Author",
             if sTruthy primaryAuthor.id then
               authorBase ++ "/" ++ primaryAuthor.id.getD ""
             else "",
             orDefault primaryAuthor.imageurl defaultAuthorAvatar)
          | none => ("Unknown Author", "", defaultAuthorAvatar)
        let formattedAuthors : List AuthorRef := authors.map (fun author =>
          { id := author.id
            name := jsOrChain
              [some (jsTrim (orDefault author.first_name "" ++ " " ++
                 orDefault author.last_name ""))] "Unknown Author"
            url := if sTruthy author.id then authorBase ++ "/" ++ author.id.getD "" else "" })
        match book.sections with
        | none =>
          (.error (Err.script ("Failed to parse audiobook details: " ++ jsonParseErrMsg)),
           [apiUrl] ++ archLog)
        | some sections =>
          (.ok
            { viewCount := viewCount
              title := orDefault book.title "Unknown Title"
              description := orDefault book.description ""
              authorThumbnailUrl := primary.2.2
              authorName := primary.1
              authorUrl := primary.2.1
              authors := formattedAuthors
              bookCoverUrl := jsOrChain [book.coverart_thumbnail, book.coverart_jpg] defaultBookCover
              chapters := sections.enum.map (fun p => formatChapterData p.2 p.1) },
           [apiUrl] ++ archLog)

/-- Embeds `fetchAudiobookDetailsFromHtml(url)` (lines 2276-2359): scrape the
book page.  A non-success status throws inside the try block, so its
message is rewrapped by the catch. -/
def fetchAudiobookDetailsFromHtml (env : DetailsEnv) (url : String) :
    Except Err Details × List String :=
  let resp := env.html url
  if ¬ resp.isOk then
    (.error (Err.script
      ("Failed to parse audiobook page: Failed to fetch audiobook page: " ++ toString resp.code)),
     [url])
  else
    let dom := resp.dom
    let authors0 : List AuthorRef := dom.authorLinks.map (fun al =>
      { name := textOr al.1 "Unknown Author"
        url := orDefault al.2 ""
        id := extractChannelId (some (orDefault al.2 "")) })
    let authors :=
      if authors0.length = 0 then [{ name := "Unknown Author", url := "", id := none }]
      else authors0
    let title := textOr dom.titleText "Unknown Title"
    let description := textOr dom.descriptionText ""
    let bookCoverUrl := orDefault dom.coverSrc defaultBookCover
    let chapters := dom.chapterRows.enum.map (fun p =>
      let idx := p.1
      let row := p.2
      let chapterName := textOr row.nameText ("Chapter " ++ toString (idx + 1))
      let chapterFile := orDefault row.nameHref ""
      let durationText := textOr (row.tdTexts.getLast?.join) "0:0:0"
      let readers : List ReaderRef := row.readerLinks.map (fun rl =>
        { name := textOr rl.1 ""
          url := orDefault rl.2 ""
          id := extractReaderIdFromUrl (some (orDefault rl.2 "")) })
      { section_id := none
        chapterId := idx
        chapterName := chapterName
        chapterFile := chapterFile
        duration := timeToSeconds (some durationText)
        readers := if readers.length > 0 then readers else [{ name := "", url := "", id := some "" }]
        : Chapter })
    (.ok
      { viewCount := -1
        title := title
        description := description
        authorThumbnailUrl := defaultAuthorAvatar
        authorName := (authors.head?.map (fun a => a.name)).getD ""
        authorUrl := (authors.head?.map (fun a => a.url)).getD ""
        authors := authors
        bookCoverUrl := bookCoverUrl
        chapters := chapters },
     [url])

/-- Embeds `getAudiobookCachedDetails(url)` of the final revision (lines
2170-2179).  Despite its name it neither reads nor writes
`state.audiobookDetails`: it branches on the URL shape only, and the
global state passes through unchanged. -/
def getAudiobookCachedDetails (env : DetailsEnv) (st : State) (url : String) :
    Except Err Details × State × List String :=
  match extractId (some url) with
  | some audioBookId =>
    let r := fetchAudiobookDetailsFromApi env audioBookId
    (r.1, st, r.2)
  | none =>
    let r := fetchAudiobookDetailsFromHtml env url
    (r.1, st, r.2)

/-- User settings consumed by chapter resolution. -/
structure Settings where
  useHLS : Bool
deriving DecidableEq, Repr

/-- Embeds `PlatformVideoDetails` restricted to the fields the plugin sets. -/
structure VideoDetails where
  idv : String
  name : String
  description : String
  authorIdv : String
  authorName : String
  authorUrl : String
  url : String
  duration : Int
  thumbnail : String
  sources : List Source
  viewCount : Int
deriving DecidableEq, Repr

/-- Internal book URL prefix recognised by the final revision. -/
def internalBookPrefix : String := "https://grayjay.internal/librivox/book/"

/-- Embeds `source.getContentDetails(url)` of the final revision (lines
1330-1464): resolve the chapter and build the ordered source list --
the direct archive.org file first when `chapterFile` is non-empty,
then (when `section_id` is present) the HLS source only under the
`useHLS` setting followed by the proxied mp3. -/
def getContentDetails (env : DetailsEnv) (settings : Settings) (url : String) :
    Except Err VideoDetails × List String :=
  let internal := internalBookPrefix.toList.isPrefixOf url.toList
  let bookId : Option String :=
    if internal then
      some (((jsSplit ((jsSplit url '/').getLast?.getD "") '?').head?).getD "")
    else extractId (some url)
  let chapterId := searchParamGet url "chapter"
  let fetched :=
    if sTruthy bookId then fetchAudiobookDetailsFromApi env (bookId.getD "")
    else fetchAudiobookDetailsFromHtml env url
  match fetched with
  | (.error e, log) => (.error e, log)
  | (.ok playlistInfo, log) =>
    match playlistInfo.chapters.find? (fun c => looseEqIdx c.chapterId chapterId) with
    | none => (.error (Err.script ("Chapter not found: " ++ tmplNull chapterId)), log)
    | some chapter =>
      let authorsText :=
        if playlistInfo.authors.length > 0 then
          "Author" ++ (if playlistInfo.authors.length > 1 then "s" else "") ++ ": " ++
            strJoin ", " (playlistInfo.authors.map (fun author =>
              let authorUrl :=
                if author.url ≠ "" then author.url
                else if sTruthy author.id then authorBase ++ "/" ++ author.id.getD ""
                else ""
              if authorUrl ≠ "" then
                "<a href=\"" ++ authorUrl ++ "\">" ++ author.name ++ "</a>"
              else author.name))
        else if playlistInfo.authorName ≠ "" ∧ playlistInfo.authorUrl ≠ "" then
          "Author: <a href=\"" ++ playlistInfo.authorUrl ++ "\">" ++
            playlistInfo.authorName ++ "</a>"
        else ""
      let readersText :=
        if chapter.readers.length > 0 then
          "\n\nRead by: " ++ strJoin ", " (chapter.readers.map (fun reader =>
            if reader.url ≠ "" then
              "<a href=\"" ++ reader.url ++ "\">" ++ reader.name ++ "</a>"
            else reader.name))
        else ""
      let combinedDescription := playlistInfo.description ++ "\n\n" ++ authorsText ++ readersText
      let duration := chapter.duration
      let sources :=
        (if chapter.chapterFile ≠ "" then
          [Source.audioUrl "audio (archive.org)" "audio/mpeg" "mp4a.40.2"
            chapter.chapterFile duration]
         else []) ++
        (if sTruthy chapter.section_id then
          (if settings.useHLS then
            [Source.hls "HLS" (proxyBase ++ chapter.section_id.getD "" ++ ".m3u8") duration]
           else []) ++
          [Source.audioUrl "audio (cached v2)" "audio/mpeg" "mp4a.40.2"
            (proxyBase ++ chapter.section_id.getD "" ++ ".mp3") duration]
         else [])
      (.ok
        { idv := tmpl bookId ++ "_chapter_" ++ tmplNull chapterId
          name := chapter.chapterName
          description := combinedDescription
          authorIdv := orDefault (extractChannelId (some playlistInfo.authorUrl)) ""
          authorName := playlistInfo.authorName
          authorUrl := playlistInfo.authorUrl
          url := url
          duration := chapter.duration
          thumbnail := playlistInfo.bookCoverUrl
          sources := sources
          viewCount := playlistInfo.viewCount },
       log)

-- ====================== Final-revision pagers ======================

/-- Pager state of `HomeContentPager` (lines 1471-1521). -/
structure HomePager where
  results : List (Option PlatformPlaylist)
  hasMore : Bool
  offset : Nat
deriving Repr

/-- Embeds `this.pageSize` of the final-revision home pager. -/
def homePageSize : Nat := 10

/-- Embeds `URLS.API_AUDIOBOOKS_ALL` of the final revision. -/
def apiAudiobooksAll : String :=
  "https://librivox-api.openaudiobooks.org/api/feed/audiobooks?format=json&extended=1&coverart=1&sort_field=id&sort_order=desc"

/-- The catalog page URL built by `HomeContentPager.nextPage`. -/
def homeUrl (offset : Nat) (languageOption : Option String) : String :=
  apiAudiobooksAll ++ "&limit=" ++ toString homePageSize ++ "&offset=" ++ toString offset ++
    (match languageOption with
     | some l => if l ≠ "" ∧ l ≠ "All" then "&language=" ++ l else ""
     | none => "")

/-- Environment of the listing endpoints (keyed by request URL). -/
structure ListEnv where
  get : String → HttpResp ListBody

/-- Embeds `HomeContentPager.nextPage` of the final revision (lines
1479-1520): fetch one catalog page, convert and filter against the
latest-release dedup set, and never throw -- every failure mode sets
`hasMore` to false and leaves the result list empty. -/
def homeNextPage (env : ListEnv) (languageOption : Option String) (latestIds : List String)
    (p : HomePager) : HomePager :=
  let resp := env.get (homeUrl p.offset languageOption)
  if resp.isOk then
    match resp.body with
    | none => { p with results := [], hasMore := false }
    | some data =>
      match data.books with
      | some books =>
        if books.length > 0 then
          let newBooks := (books.map audiobookToPlaylist).filter (fun b =>
            match b with
            | some pl => !(latestIds.contains pl.idv)
            | none => false)
          { results := newBooks, offset := p.offset + homePageSize,
            hasMore := newBooks.length > 0 }
        else { p with results := [], hasMore := false }
      | none => { p with results := [], hasMore := false }
  else { p with results := [], hasMore := false }

/-- Context of `SearchAudiobooksPager` (lines 1526-1580). -/
structure SearchContext where
  baseUrl : String
  query : Option String
  filterCb : Option (BookRec → Bool)
  limit : Option Nat
  offset : Option Nat

/-- Pager value of `SearchAudiobooksPager`. -/
structure SearchPager where
  videos : List (Option PlatformPlaylist)
  hasMore : Bool
  context : SearchContext

/-- Request URL of `SearchAudiobooksPager.nextPage`. -/
def searchUrl (ctx : SearchContext) (offset : Nat) : String :=
  ctx.baseUrl ++ "?" ++ objectToUrlEncodedString
    [("format", "json"), ("extended", "1"), ("coverart", "1"),
     ("limit", toString (limitOr ctx.limit 50)), ("offset", toString offset),
     ("q", match ctx.query with
           | some q => jsTrim (jsToLower q)
           | none => "undefined")]

/-- Embeds `SearchAudiobooksPager.nextPage` of the final revision (lines
1531-1579).  A null entry in the `books` array makes the
`b.url_librivox` filter throw inside the try block, which the catch
turns into an empty page with `hasMore=false`; a non-success response
skips the try block, leaving zero results, and the length heuristic
then yields `hasMore=false`. -/
def searchNextPage (env : ListEnv) (p : SearchPager) : SearchPager :=
  let offset := p.context.offset.getD 0
  let res := env.get (searchUrl p.context offset)
  let tryOutcome : Option (Nat × List (Option PlatformPlaylist)) :=
    if res.isOk then
      match res.body with
      | none => none
      | some body =>
        let books := body.books.getD []
        match seqSomes books with
        | none => none
        | some bs =>
          let bs1 := bs.filter (fun b => sTruthy b.url_librivox)
          let bs2 := bs1.filter (fun b => (p.context.filterCb.getD (fun _ => true)) b)
          some (books.length, bs2.map (fun b => audiobookToPlaylist (some b)))
    else some (0, [])
  match tryOutcome with
  | none => { videos := [], hasMore := false, context := p.context }
  | some out =>
    let offset2 := offset + limitOr p.context.limit 10
    { videos := out.2
      hasMore := out.1 = limitOr p.context.limit 10
      context := { p.context with offset := some offset2 } }

-- ====================== Reader channel and persisted state ======================

/-- Embeds `PlatformChannel` restricted to the fields the plugin sets. -/
structure PlatformChannel where
  idv : String
  name : String
  thumbnail : String
  subscribers : Int
  description : String
  url : String
  links : List (String × String)
deriving DecidableEq, Repr

/-- Reader avatar of the final revision (same asset as the author
avatar). -/
def defaultReaderAvatar : String := defaultAuthorAvatar

/-- Reader profile page DOM reduced to the query results
`fetchReaderInfo` reads. -/
structure ReaderHalfDom where
  p1 : Option String
  p2 : Option String
deriving Repr

structure ReaderDom where
  headerH1 : Option String
  firstP1 : Option String
  firstP2 : Option String
  halves : List ReaderHalfDom
deriving Repr

structure ReaderHtmlResp where
  isOk : Bool
  code : Int
  dom : ReaderDom
deriving Repr

structure ReaderEnv where
  page : String → ReaderHtmlResp

/-- Remove the first occurrence of the pattern (JavaScript
`String.prototype.replace` with a string pattern and empty
replacement). -/
def replaceFirstList (pat : List Char) : List Char → List Char
  | [] => []
  | c :: rest =>
    if pat.isPrefixOf (c :: rest) then (c :: rest).drop pat.length
    else c :: replaceFirstList pat rest

/-- First match of `label` followed by optional whitespace and a
non-empty digit run (the `/...:\s*(\d+)/` reader-page regexes),
returning the digit value. -/
def findCountAfter (label : List Char) : List Char → Option Nat
  | [] => none
  | c :: rest =>
    if label.isPrefixOf (c :: rest) then
      match digitsVal (((c :: rest).drop label.length).dropWhile isWs) with
      | some n => some n
      | none => findCountAfter label rest
    else findCountAfter label rest

/-- Embeds `fetchReaderInfo(readerId)` of the final revision (lines
1854-1937): scrape the reader profile page; on transport failure
return the minimal `{ name, bookCount: 0 }` object. -/
def fetchReaderInfo (env : ReaderEnv) (readerId : String) : ReaderInfo × List String :=
  let url := readerBase ++ "/" ++ readerId
  let resp := env.page url
  if ¬ resp.isOk then
    ({ name := "Reader " ++ readerId, catalogName := none, forumName := none,
       totalSections := none, totalMatches := none, description := none,
       bookCount := 0 }, [url])
  else
    let readerName :=
      match resp.dom.headerH1 with
      | some t => jsTrim t
      | none => "Reader " ++ readerId
    let catalogName :=
      match resp.dom.firstP1 with
      | some t => jsTrim (String.mk (replaceFirstList "Catalog name:".toList t.toList))
      | none => ""
    let forumName :=
      match resp.dom.firstP2 with
      | some t => jsTrim (String.mk (replaceFirstList "Forum name:".toList t.toList))
      | none => ""
    let counts : Nat × Nat :=
      if resp.dom.halves.length > 1 then
        let secondHalf := ((resp.dom.halves.drop 1).head?).getD { p1 := none, p2 := none }
        (match secondHalf.p1 with
         | some t => (findCountAfter "Total sections:".toList t.toList).getD 0
         | none => 0,
         match secondHalf.p2 with
         | some t => (findCountAfter "Total matches:".toList t.toList).getD 0
         | none => 0)
      else (0, 0)
    let totalSections := counts.1
    let totalMatches := counts.2
    let description0 :=
      (if catalogName ≠ "" then "LibriVox reader known as " ++ catalogName ++ ". " else "") ++
      (if totalSections > 0 then
        "Has recorded " ++ toString totalSections ++ " sections across various audiobooks. "
       else "") ++
      (if totalMatches > 0 then
        "Has participated in " ++ toString totalMatches ++ " complete recordings. "
       else "")
    let description := if description0 = "" then "LibriVox volunteer reader." else description0
    ({ name := readerName
       catalogName := some (if catalogName = "" then readerName else catalogName)
       forumName := some forumName
       totalSections := some (totalSections : Int)
       totalMatches := some (totalMatches : Int)
       description := some description
       bookCount := (totalMatches : Int) }, [url])

/-- Embeds `getReaderChannel(url)` of the final revision (lines 1811-1847):
return the cached reader info without any request on a hit; fetch,
cache under the reader id and return on a miss. -/
def getReaderChannel (env : ReaderEnv) (st : State) (url : String) :
    PlatformChannel × State × List String :=
  let key := (extractReaderIdFromUrl (some url)).getD "null"
  match lookup st.readers key with
  | some reader =>
    ({ idv := url
       name := reader.name ++ " (reader)"
       thumbnail := defaultReaderAvatar
       subscribers := 0
       description := orDefault reader.description
         ("LibriVox reader with " ++
           (if reader.bookCount = 0 then "many" else toString reader.bookCount) ++
           " narrated books.")
       url := url
       links := [("LibriVox", url)] }, st, [])
  | none =>
    let fr := fetchReaderInfo env key
    let readerInfo := fr.1
    ({ idv := url
       name := readerInfo.name ++ " (reader)"
       thumbnail := defaultReaderAvatar
       subscribers := 0
       description := readerInfo.description.getD ""
       url := url
       links := [("LibriVox", url)] },
     { st with readers := assocSet st.readers key readerInfo }, fr.2)

/-- Denotation of the JSON string produced by `source.saveState`
(lines 1199-1206): the whole state with the dedup set spread out as an
array.  `JSON.stringify`/`JSON.parse` of plain data round-trips to the
same denotation. -/
structure SavedBlob where
  audiobookDetails : List (String × Details)
  authors : List AuthorData
  readers : List (String × ReaderInfo)
  latestReleaseIds : List String
deriving DecidableEq, Repr

/-- Embeds `source.saveState` (lines 1199-1206): `Array.from` preserves the
insertion order of the set elements. -/
def saveState (st : State) : SavedBlob :=
  { audiobookDetails := st.audiobookDetails
    authors := st.authors
    readers := st.readers
    latestReleaseIds := st.latestReleaseIds }

/-- Embeds `source.enable` (lines 1159-1193) restricted to its state
restoration: `none` is a missing saved string, `some none` a string on
which `JSON.parse` throws (caught: the previous initial state keeps
only a fresh set and reader map), `some (some blob)` a well-formed
blob, whose id array is turned back into a set. -/
def enable : Option (Option SavedBlob) → State
  | none => initialState
  | some none => initialState
  | some (some blob) =>
    { audiobookDetails := blob.audiobookDetails
      authors := blob.authors
      readers := blob.readers
      latestReleaseIds := jsNewSet blob.latestReleaseIds }

end Rev2

namespace Rev1

/-!
Embedding of the first revision inside src/LibriVoxScript.js
(lines 1-1085 of the concatenated file).
-/

/-- Chapter data of the first revision (`formatChapterData`, lines
796-806): a single reader, no section id. -/
structure Chapter where
  chapterId : Nat
  chapterName : String
  chapterFile : String
  duration : Int
  readerName : String
  readerUrl : String
deriving DecidableEq, Repr

/-- Cached book details of the first revision. -/
structure Details where
  viewCount : Int
  title : String
  description : String
  authorThumbnailUrl : String
  authorName : String
  authorUrl : String
  bookCoverUrl : String
  chapters : List Chapter
deriving DecidableEq, Repr

/-- Global plugin state of the first revision (lines 48-52). -/
structure State where
  audiobookDetails : List (String × Details)
  authors : List AuthorData
  latestReleaseIds : List String
deriving DecidableEq, Repr

/-- Embeds `formatChapterData(s, idx)` (lines 796-806). -/
def formatChapterData (s : ApiSection) (idx : Nat) : Chapter :=
  let reader := (s.readers.head?).getD { display_name := some "", id := some "", reader_id := none }
  { chapterId := idx
    chapterName := orDefault s.title ("Chapter " ++ toString (idx + 1))
    chapterFile := orDefault s.listen_url ""
    duration := (s.playtime.bind jsParseInt).getD 0
    readerName := orDefault reader.display_name ""
    readerUrl := if sTruthy reader.id then readerBase ++ "/" ++ reader.id.getD "" else "" }

/-- Network environment of first-revision detail resolution. -/
structure DetailsEnv where
  get : String → HttpResp ApiBody
  archive : String → HttpResp (Option ArchiveEntry)
  html : String → HtmlResp

/-- Embeds `URLS.API_AUDIOBOOKS_DETAILS` of the first revision (librivox.org
host). -/
def apiDetailsUrl (id : String) : String :=
  "https://librivox.org/api/feed/audiobooks/id/" ++ id ++ "?format=json&extended=1&coverart=1"

/-- Embeds `fetchViewCount` (lines 668-681), identical logic to the final
revision. -/
def fetchViewCount (env : DetailsEnv) (iid : String) : Int × List String :=
  let r := env.archive (Rev2.archiveViewsUrl iid)
  let v :=
    if r.isOk then
      match r.body with
      | none => -1
      | some entry =>
        match entry with
        | some e => if e.have_data then (if e.all_time = 0 then -1 else e.all_time) else -1
        | none => -1
    else -1
  (v, [Rev2.archiveViewsUrl iid])

/-- Embeds `fetchAudiobookDetailsFromApi(audioBookId, url)` (lines 615-661):
throws on a non-success status or a malformed/incomplete body (note
`book.url_iarchive.match` is not optional-chained here, so an absent
`url_iarchive` also throws inside the try block), and on success
stores the details in `state.audiobookDetails[url]`.  There is no
HTML fallback. -/
def fetchAudiobookDetailsFromApi (env : DetailsEnv) (st : State) (audioBookId : String)
    (url : String) : Except Err Details × State × List String :=
  let apiUrl := apiDetailsUrl audioBookId
  let res := env.get apiUrl
  if ¬ res.isOk then
    (.error (Err.script ("Failed to fetch audiobook details: " ++ toString res.code)), st, [apiUrl])
  else
    match res.body with
    | none =>
      (.error (Err.script ("Failed to parse audiobook details: " ++ jsonParseErrMsg)), st, [apiUrl])
    | some body =>
      match ((body.books.getD []).head?).join with
      | none =>
        (.error (Err.script
          "Failed to parse audiobook details: No book data found in API response"), st, [apiUrl])
      | some book =>
        match book.url_iarchive with
        | none =>
          (.error (Err.script ("Failed to parse audiobook details: " ++ jsonParseErrMsg)),
           st, [apiUrl])
        | some ui =>
          let iarchive := extractArchiveIdAux ui.toList
          let (viewCount, archLog) :=
            match iarchive with
            | some iid => fetchViewCount env iid
            | none => (-1, [])
          let author := (book.authors.head?).getD
            { first_name := some "", last_name := some "", id := some "", imageurl := none }
          let channel := st.authors.find? (fun a => jsEq a.id author.id)
          let authorName := jsOrChain
            [channel.map (fun c => c.name),
             some (jsTrim (orDefault author.first_name "" ++ " " ++ orDefault author.last_name ""))]
            "Unknown Author"
          let authorUrl := jsOrChain
            [channel.map (fun c => c.url),
             some (if sTruthy author.id then authorBase ++ "/" ++ author.id.getD "" else "")] ""
          let authorThumbnailUrl :=
            jsOrChain [channel.map (fun c => c.authorThumbnailUrl)] defaultAuthorAvatar
          match book.sections with
          | none =>
            (.error (Err.script ("Failed to parse audiobook details: " ++ jsonParseErrMsg)),
             st, [apiUrl] ++ archLog)
          | some sections =>
            let d : Details :=
              { viewCount := viewCount
                title := orDefault book.title "Unknown Title"
                description := orDefault book.description ""
                authorThumbnailUrl := authorThumbnailUrl
                authorName := authorName
                authorUrl := authorUrl
                bookCoverUrl :=
                  jsOrChain [book.coverart_thumbnail, book.coverart_jpg] defaultBookCover
                chapters := sections.enum.map (fun p => formatChapterData p.2 p.1) }
            (.ok d, { st with audiobookDetails := assocSet st.audiobookDetails url d },
             [apiUrl] ++ archLog)

/-- Embeds `fetchAudiobookDetailsFromHtml(url)` (lines 688-751): scrape the
book page and store the result under the URL key. -/
def fetchAudiobookDetailsFromHtml (env : DetailsEnv) (st : State) (url : String) :
    Except Err Details × State × List String :=
  let resp := env.html url
  if ¬ resp.isOk then
    (.error (Err.script
      ("Failed to parse audiobook page: Failed to fetch audiobook page: " ++ toString resp.code)),
     st, [url])
  else
    let dom := resp.dom
    let authorElement := dom.authorLinks.head?
    let title := textOr dom.titleText "Unknown Title"
    let description := textOr dom.descriptionText ""
    let authorName := textOr (authorElement.bind (fun al => al.1)) "Unknown Author"
    let authorUrl := orDefault (authorElement.bind (fun al => al.2)) ""
    let bookCoverUrl := orDefault dom.coverSrc defaultBookCover
    let chapters := dom.chapterRows.enum.map (fun p =>
      let idx := p.1
      let row := p.2
      let readerElement := row.readerLinks.head?
      { chapterId := idx
        chapterName := textOr row.nameText ("Chapter " ++ toString (idx + 1))
        chapterFile := orDefault row.nameHref ""
        duration := timeToSeconds (some (textOr (row.tdTexts.getLast?.join) "0:0:0"))
        readerName := textOr (readerElement.bind (fun rl => rl.1)) ""
        readerUrl := orDefault (readerElement.bind (fun rl => rl.2)) "" : Chapter })
    let d : Details :=
      { viewCount := -1
        title := title
        description := description
        authorThumbnailUrl := defaultAuthorAvatar
        authorName := authorName
        authorUrl := authorUrl
        bookCoverUrl := bookCoverUrl
        chapters := chapters }
    (.ok d, { st with audiobookDetails := assocSet st.audiobookDetails url d }, [url])

/-- Embeds `getAudiobookCachedDetails(url)` of the first revision (lines
595-607): a cache hit returns the stored value with no request; a
miss resolves by URL shape (id present: structured endpoint, else
HTML scrape). -/
def getAudiobookCachedDetails (env : DetailsEnv) (st : State) (url : String) :
    Except Err Details × State × List String :=
  match lookup st.audiobookDetails url with
  | some d => (.ok d, st, [])
  | none =>
    match extractId (some url) with
    | some audioBookId => fetchAudiobookDetailsFromApi env st audioBookId url
    | none => fetchAudiobookDetailsFromHtml env st url

/-- Embeds `audiobookToPlaylist(book)` of the first revision (lines 813-841):
the playlist id value is `book.url_librivox` or empty. -/
def audiobookToPlaylist : Option BookRec → Option PlatformPlaylist
  | none => none
  | some book =>
    let author := (book.authors.head?).getD defaultBookAuthor
    let combined_name :=
      if sTruthy author.first_name || sTruthy author.last_name then
        jsTrim (orDefault author.first_name "" ++ " " ++ orDefault author.last_name "")
      else ""
    let author_name := jsOrChain [author.author, some combined_name] "Unknown Author"
    let author_url :=
      if sTruthy author.id then authorBase ++ "/" ++ author.id.getD "" else ""
    some
      { idv := orDefault book.url_librivox ""
        authorName := author_name
        authorUrl := author_url
        authorThumb := defaultAuthorAvatar
        name := orDefault book.title "Unknown Title"
        thumbnail := jsOrChain [book.coverart_thumbnail, book.coverart_jpg] defaultBookCover
        videoCount :=
          match book.sections with
          | some l => if l.length = 0 then -1 else (l.length : Int)
          | none => -1
        url :=
          if sTruthy book.id then tmpl book.url_librivox ++ "?id=" ++ book.id.getD ""
          else orDefault book.url_librivox "" }

-- ====================== First-revision home pager ======================

/-- Embeds `URLS.API_LATEST_RELEASES`. -/
def latestUrl : String :=
  "https://librivox.org/api/feed/latest_releases?format=json&extended=1&coverart=1"

/-- The catalog page URL of the first revision. -/
def allUrl (limit offset : Nat) : String :=
  "https://librivox.org/api/feed/audiobooks?format=json&extended=1" ++
    "&limit=" ++ toString limit ++ "&offset=" ++ toString offset

/-- Embeds `this.pageSize` of the first-revision home pager. -/
def pageSize : Nat := 50

/-- Home listing environment: the latest-releases body is a bare JSON
array; the catalog body is `{ books: ... }`. -/
structure HomeEnv where
  latest : HttpResp (List (Option BookRec))
  all : String → HttpResp ListBody

/-- Pager state of the first-revision `HomeContentPager`. -/
structure HomePage where
  results : List (Option PlatformPlaylist)
  hasMore : Bool
  offset : Nat
  latestLoaded : Bool
deriving Repr

/-- The latest-releases pass of `loadInitialPage` (lines 221-235):
convert each record, add every non-empty playlist id to the dedup set
as a side effect, prefix the title, and drop null conversions at the
end. -/
def processLatest : List (Option BookRec) → List String →
    List (Option PlatformPlaylist) × List String
  | [], ids => ([], ids)
  | b :: rest, ids =>
    let p := audiobookToPlaylist b
    let ids2 :=
      match p with
      | some pl => if pl.idv ≠ "" then setAdd ids pl.idv else ids
      | none => ids
    let p2 := p.map (fun pl => { pl with name := "New: " ++ pl.name })
    let r := processLatest rest ids2
    (p2 :: r.1, r.2)

/-- The latest-releases segment and the updated dedup set computed by
`loadInitialPage` (step 1, lines 213-239). -/
def initialLatest (env : HomeEnv) (st : State) :
    List (Option PlatformPlaylist) × List String :=
  let latestResp := env.latest
  if latestResp.isOk then
    match latestResp.body with
    | none => ([], st.latestReleaseIds)
    | some latestData =>
      let r := processLatest latestData st.latestReleaseIds
      (r.1.filter (fun p => p.isSome), r.2)
  else ([], st.latestReleaseIds)

/-- The regular-catalog segment of `loadInitialPage` (step 2, lines
241-259), filtered against the dedup set updated by step 1;
`otherData.books.map` throws when `books` is absent, caught into an
empty segment. -/
def initialRegular (env : HomeEnv) (ids : List String) : List (Option PlatformPlaylist) :=
  let otherResp := env.all (allUrl pageSize 0)
  if otherResp.isOk then
    match otherResp.body with
    | none => []
    | some otherData =>
      match otherData.books with
      | none => []
      | some books =>
        (books.map audiobookToPlaylist).filter (fun b =>
          match b with
          | some pl => !(ids.contains pl.idv)
          | none => false)
  else []

/-- Embeds `HomeContentPager.loadInitialPage` (lines 212-268). -/
def loadInitialPage (env : HomeEnv) (st : State) : State × HomePage × List String :=
  let l := initialLatest env st
  let regularBooks := initialRegular env l.2
  ({ st with latestReleaseIds := l.2 },
   { results := l.1 ++ regularBooks
     hasMore := regularBooks.length > 0
     offset := pageSize
     latestLoaded := true },
   [latestUrl, allUrl pageSize 0])

/-- Embeds `HomeContentPager.loadMoreBooks` (lines 270-306): fetch one more
catalog page and filter it against the dedup set; the method reads but
never writes the global state, so no state is returned. -/
def loadMoreBooks (env : HomeEnv) (st : State) (hp : HomePage) : HomePage × List String :=
  let url := allUrl pageSize hp.offset
  let resp := env.all url
  if resp.isOk then
    match resp.body with
    | none => ({ hp with results := [], hasMore := false }, [url])
    | some data =>
      match data.books with
      | some books =>
        if books.length > 0 then
          let newBooks := (books.map audiobookToPlaylist).filter (fun b =>
            match b with
            | some pl => !(st.latestReleaseIds.contains pl.idv)
            | none => false)
          ({ hp with results := newBooks, offset := hp.offset + pageSize,
                     hasMore := newBooks.length > 0 }, [url])
        else ({ hp with results := [], hasMore := false }, [url])
      | none => ({ hp with results := [], hasMore := false }, [url])
  else ({ hp with results := [], hasMore := false }, [url])

/-- Iterated `loadMoreBooks` calls: the catalog pages surfaced after
the initial page within one session. -/
def runMore (env : HomeEnv) : Nat → State → HomePage → List (List (Option PlatformPlaylist))
  | 0, _, _ => []
  | n + 1, st, hp =>
    let r := loadMoreBooks env st hp
    r.1.results :: runMore env n st r.1

end Rev1

namespace P0

/-!
Embedding of the earliest revision, src/unnamed/part_000.
-/

/-- Embeds `safeTextContent`: trimmed text content or null. -/
def safeText (t : Option String) : Option String :=
  match t with
  | some s => let s := jsTrim s; if s = "" then none else some s
  | none => none

/-- Embeds `safeAttribute`: attribute value or null (an empty attribute is
falsy). -/
def safeAttr (a : Option String) : Option String :=
  match a with
  | some s => if s = "" then none else some s
  | none => none

/-- An `h3` element of a catalog result, reduced to the two text
queries `extractBookData` performs on it. -/
structure H3Dom where
  firstChildText : Option String
  text : Option String
deriving Repr

/-- One `li.catalog-result` element reduced to the query results
`extractBookData` reads (the dropped `metadata`/`download`/`coverImage`
record fields are never consumed downstream). -/
structure CatalogItemDom where
  h3 : Option H3Dom
  bookAuthorHref : Option String
  bookAuthorText : Option String
  bookCoverHref : Option String
  subCategoryHref : Option String
  coverImgSrc : Option String
  dodDobText : Option String
deriving Repr

/-- Parsed body of the advanced-search endpoint. -/
structure SearchBody where
  results : Option String
deriving Repr

/-- Environment of the part_000 search path. -/
structure Env where
  get : String → HttpResp SearchBody
  parseCatalog : String → List CatalogItemDom

/-- Strip parentheses (the global parenthesis-stripping replace). -/
def removeParens (s : String) : String :=
  String.mk (s.toList.filter (fun c => c ≠ '(' ∧ c ≠ ')'))

/-- Embeds `extractBookData(htmlString)` of part_000 (lines 537-606): throws
on a missing or empty input string, otherwise maps each catalog
result to a raw book record. -/
def extractBookData (env : Env) (htmlString : Option String) : Except Err (List BookRec) :=
  match htmlString with
  | none => .error (Err.script "Invalid input: htmlString must be a non-empty string")
  | some s =>
    if s = "" then .error (Err.script "Invalid input: htmlString must be a non-empty string")
    else
      let items := env.parseCatalog s
      if items.length = 0 then .ok []
      else
        .ok (items.map (fun book =>
          let bookTitle :=
            match book.h3 with
            | some h =>
              match safeText h.firstChildText with
              | some t => some t
              | none => safeText h.text
            | none => none
          let authorUrl := (safeAttr book.bookAuthorHref).getD ""
          let url_librivox :=
            match safeAttr book.bookCoverHref with
            | some v => some v
            | none => safeAttr book.subCategoryHref
          { id := none
            title := bookTitle
            url_librivox := url_librivox
            coverart_thumbnail := none
            coverart_jpg := none
            authors := [{ first_name := none, last_name := none,
                          id := extractChannelId (some authorUrl),
                          author := safeText book.bookAuthorText,
                          imageurl := none }]
            sections := none : BookRec }))

/-- Embeds `audiobookToPlaylist(book)` of part_000 (lines 502-524): no null
guard (a null record would throw), template interpolation renders an
absent name part as the text "undefined", and `videoCount` uses `??`
so an empty sections array counts as 0. -/
def audiobookToPlaylist (dcbu : String) (book : BookRec) : PlatformPlaylist :=
  let author := (book.authors.head?).getD defaultBookAuthor
  let combined_name :=
    if sTruthy author.first_name || sTruthy author.last_name then
      jsTrim (tmpl author.first_name ++ " " ++ tmpl author.last_name)
    else ""
  let author_name := jsOrChain [author.author, some combined_name] ""
  let author_url :=
    if sTruthy author.id then authorBase ++ "/" ++ author.id.getD "" else ""
  { idv := (book.url_librivox).getD ""
    authorName := author_name
    authorUrl := author_url
    authorThumb := ""
    name := (book.title).getD ""
    thumbnail := jsOrChain [book.coverart_thumbnail, book.coverart_jpg] dcbu
    videoCount :=
      match book.sections with
      | some l => (l.length : Int)
      | none => -1
    url :=
      if sTruthy book.id then tmpl book.url_librivox ++ "?id=" ++ book.id.getD ""
      else (book.url_librivox).getD "" }

/-- The advanced-search URL built by `source.search` of part_000 (the
query is interpolated without encoding). -/
def searchAdvancedUrl (query : String) : String :=
  "https://librivox.org/advanced_search?title=" ++ query ++
    "&author=&reader=&keywords=&genre_id=0&status=complete&project_type=either&recorded_language=&sort_order=catalog_date&search_page=1&search_form=advanced&q="

/-- Embeds `source.search(query)` of part_000 (lines 114-130): there is no
status check and no try/catch, so `JSON.parse` of a malformed body --
and the input validation inside `extractBookData` -- propagate as
exceptions to the caller. -/
def search (env : Env) (dcbu : String) (query : String) :
    Except Err (List PlatformPlaylist) × List String :=
  let url := searchAdvancedUrl query
  let resp := env.get url
  match resp.body with
  | none => (.error (Err.script jsonParseErrMsg), [url])
  | some body =>
    match extractBookData env body.results with
    | .error e => (.error e, [url])
    | .ok records =>
      (.ok ((records.filter (fun x => ¬ isCollectionUrl x.url_librivox)).map
        (audiobookToPlaylist dcbu)), [url])

end P0

namespace P1

/-!
Embedding of src/unnamed/part_001.  Its `audiobookToPlaylist`,
search pager and constants coincide with the final revision; its home
pager differs: the filter keeps every non-null conversion and no
dedup set is consulted.
-/

/-- Embeds `HomeContentPager.nextPage` of part_001 (lines 356-394). -/
def homeNextPage (env : Rev2.ListEnv) (languageOption : Option String)
    (p : Rev2.HomePager) : Rev2.HomePager :=
  let resp := env.get (Rev2.homeUrl p.offset languageOption)
  if resp.isOk then
    match resp.body with
    | none => { p with results := [], hasMore := false }
    | some data =>
      match data.books with
      | some books =>
        if books.length > 0 then
          let newBooks := (books.map audiobookToPlaylist).filter (fun b => b.isSome)
          { results := newBooks, offset := p.offset + Rev2.homePageSize,
            hasMore := newBooks.length > 0 }
        else { p with results := [], hasMore := false }
      | none => { p with results := [], hasMore := false }
  else { p with results := [], hasMore := false }

end P1

-- ====================== Helper lemmas ======================

/-- Embeds `s` starts with `p`. -/
def strHasPref (p s : String) : Prop := ∃ q, s = p ++ q

theorem contains_false_of_not_mem {l : List String} {x : String} (h : x ∉ l) :
    l.contains x = false := by
  by_contra hb
  exact h (List.elem_iff.mp (Bool.of_not_eq_false hb))

theorem mem_of_contains {l : List String} {x : String} (h : l.contains x = true) :
    x ∈ l :=
  List.elem_iff.mp h

theorem mem_setAdd_self (s : List String) (v : String) : v ∈ setAdd s v := by
  unfold setAdd
  by_cases h : v ∈ s
  · simp [h]
  · simp [h]

theorem mem_setAdd_of_mem {s : List String} {x : String} (v : String) (h : x ∈ s) :
    x ∈ setAdd s v := by
  unfold setAdd
  by_cases hc : v ∈ s
  · simp [hc, h]
  · simp [hc, List.mem_append, h]

theorem dedupFirst_eq_self (l : List String) : ∀ seen : List String,
    l.Nodup → (∀ x ∈ l, x ∉ seen) → dedupFirst seen l = l := by
  induction l with
  | nil => intro seen _ _; rfl
  | cons x rest ih =>
    intro seen hnd hdisj
    have hx : x ∉ seen := hdisj x (List.mem_cons_self x rest)
    have hc : seen.contains x = false := contains_false_of_not_mem hx
    simp only [dedupFirst, hc, Bool.false_eq_true, if_false]
    congr 1
    refine ih (x :: seen) (List.nodup_cons.mp hnd).2 ?_
    intro y hy
    simp only [List.mem_cons]
    rintro (rfl | hm)
    · exact (List.nodup_cons.mp hnd).1 hy
    · exact hdisj y (List.mem_cons_of_mem _ hy) hm

theorem jsNewSet_eq_self {l : List String} (h : l.Nodup) : jsNewSet l = l :=
  dedupFirst_eq_self l [] h (by intro x _ hx; cases hx)

-- ====================== Claim C9 ======================

/-- Claim C9 (counterexample): the claim states that every input
containing a non-numeric or malformed component yields 0, but the
string "1:xx:03" contains the non-numeric component "xx" and the
parser yields 3603 (the component alone is treated as 0, the others
still count). -/
theorem claim_C9_counterexample :
    timeToSeconds (some "1:xx:03") = 3603 ∧ ¬ timeToSeconds (some "1:xx:03") = 0 := by
  constructor
  · decide
  · decide

/-- Claim C9 (amended): the duration parser maps "01:02:03" to 3723,
"02:03" to 123 and "garbage" to 0; each colon-separated component
contributes its parsed value with 0 substituted for a non-numeric
component (so "1:xx:03" yields 3603); any input whose colon-split has
neither two nor three components, and a missing or non-string input,
yields 0; the parser never raises an error. -/
theorem claim_C9_amended :
    timeToSeconds none = 0 ∧
    timeToSeconds (some "01:02:03") = 3723 ∧
    timeToSeconds (some "02:03") = 123 ∧
    timeToSeconds (some "garbage") = 0 ∧
    timeToSeconds (some "1:xx:03") = 3603 ∧
    (∀ s h m sec, jsSplit s ':' = [h, m, sec] →
      timeToSeconds (some s) =
        (jsParseInt h).getD 0 * 3600 + (jsParseInt m).getD 0 * 60 + (jsParseInt sec).getD 0) ∧
    (∀ s m sec, jsSplit s ':' = [m, sec] →
      timeToSeconds (some s) = (jsParseInt m).getD 0 * 60 + (jsParseInt sec).getD 0) ∧
    (∀ s, (jsSplit s ':').length ≠ 2 → (jsSplit s ':').length ≠ 3 →
      timeToSeconds (some s) = 0) := by
  refine ⟨rfl, by decide, by decide, by decide, by decide, ?_, ?_, ?_⟩
  · intro s h m sec hsplit
    have hne : ¬ s = "" := by
      intro h0
      rw [h0] at hsplit
      simp [jsSplit, splitOnChar] at hsplit
    simp [timeToSeconds, hne, hsplit]
  · intro s m sec hsplit
    have hne : ¬ s = "" := by
      intro h0
      rw [h0] at hsplit
      simp [jsSplit, splitOnChar] at hsplit
    simp [timeToSeconds, hne, hsplit]
  · intro s h2 h3
    by_cases hne : s = ""
    · simp [timeToSeconds, hne]
    · simp only [timeToSeconds, hne, if_false]
      rcases hl : jsSplit s ':' with _ | ⟨a, _ | ⟨b, _ | ⟨c, _ | d⟩⟩⟩
      · simp
      · simp
      · rw [hl] at h2; simp at h2
      · rw [hl] at h3; simp at h3
      · simp

/-- Claim C9 (witness): the general malformed-shape clause of the
amended theorem evaluated at the four-component input "a:b:c:d". -/
theorem claim_C9_witness : timeToSeconds (some "a:b:c:d") = 0 :=
  claim_C9_amended.2.2.2.2.2.2.2 "a:b:c:d" (by decide) (by decide)

-- ====================== Claim C8 ======================

/-- Sample persisted state used by the C8 witness. -/
def sampleChapterC8 : Rev2.Chapter :=
  { section_id := some "5", chapterId := 0, chapterName := "Ch", chapterFile := "f.mp3",
    duration := 10, readers := [] }

def sampleDetailsC8 : Rev2.Details :=
  { viewCount := 3, title := "T", description := "D", authorThumbnailUrl := "a",
    authorName := "N", authorUrl := "u", authors := [], bookCoverUrl := "c",
    chapters := [sampleChapterC8] }

def sampleReaderC8 : Rev2.ReaderInfo :=
  { name := "R", catalogName := some "R", forumName := some "", totalSections := some 2,
    totalMatches := some 1, description := some "d", bookCount := 1 }

def sampleAuthorC8 : AuthorData :=
  { authorThumbnailUrl := "t", description := "", id := some "9", dob := some "1800",
    dod := some "1870", first_name := "A", last_name := "B", url := "u", name := "A B",
    displayName := "A B (1800 - 1870)", estimatedAge := some 70,
    displayEstimatedAge := "70 years old" }

def stC8 : Rev2.State :=
  { audiobookDetails := [("https://librivox.org/t/?id=1", sampleDetailsC8)]
    authors := [sampleAuthorC8]
    readers := [("7", sampleReaderC8)]
    latestReleaseIds := ["1", "2"] }

/-- Claim C8: serializing the plugin state with `saveState` and
restoring the resulting blob through `enable` yields the original
state: the audiobook-detail map, the reader map, the authors list and
the dedup set (persisted as an array and rebuilt as a set of the same
ids) are all preserved.  The hypothesis that the set representation is
duplicate-free is an invariant of the `Set` object it models. -/
theorem claim_C8_roundtrip (st : Rev2.State) (h : st.latestReleaseIds.Nodup) :
    Rev2.enable (some (some (Rev2.saveState st))) = st := by
  cases st with
  | mk a au re l =>
    simp only [Rev2.enable, Rev2.saveState]
    simp [jsNewSet_eq_self h]

/-- Claim C8 (witness): the round trip evaluated on a concrete state
with a non-empty entry in each of the four components. -/
theorem claim_C8_witness : Rev2.enable (some (some (Rev2.saveState stC8))) = stC8 :=
  claim_C8_roundtrip stC8 (by decide)

-- ====================== Claims C2 and C7 ======================

/-- A book page with no queryable content. -/
def emptyDom : BookPageDom :=
  { authorLinks := [], coverSrc := none, chapterRows := [], titleText := none,
    descriptionText := none }

/-- Every error produced by the final-revision structured-endpoint
fetch is a fetch-status or parse failure. -/
theorem rev2_fetchApi_error_shape (env : Rev2.DetailsEnv) (id : String) (e : Err)
    (h : (Rev2.fetchAudiobookDetailsFromApi env id).1 = Except.error e) :
    ∃ msg, e = Err.script msg ∧
      (strHasPref "Failed to fetch audiobook details: " msg ∨
       strHasPref "Failed to parse audiobook details: " msg) := by
  obtain ⟨r, log, hfa⟩ : ∃ r log, Rev2.fetchAudiobookDetailsFromApi env id = (r, log) :=
    ⟨_, _, rfl⟩
  rw [hfa] at h
  change r = Except.error e at h
  subst h
  unfold Rev2.fetchAudiobookDetailsFromApi at hfa
  simp only [] at hfa
  split at hfa
  · injection hfa with h1 h2
    injection h1 with h3
    exact ⟨_, h3.symm, Or.inl ⟨_, rfl⟩⟩
  · split at hfa
    · injection hfa with h1 h2
      injection h1 with h3
      exact ⟨_, h3.symm, Or.inr ⟨_, rfl⟩⟩
    · split at hfa
      · injection hfa with h1 h2
        injection h1 with h3
        exact ⟨_, h3.symm, Or.inr ⟨"No book data found in API response", by decide⟩⟩
      · split at hfa
        · injection hfa with h1 h2
          injection h1 with h3
          exact ⟨_, h3.symm, Or.inr ⟨_, rfl⟩⟩
        · injection hfa with h1 h2
          simp at h1

/-- Every error produced by the final-revision HTML scrape is a page
fetch/parse failure. -/
theorem rev2_fetchHtml_error_shape (env : Rev2.DetailsEnv) (url : String) (e : Err)
    (h : (Rev2.fetchAudiobookDetailsFromHtml env url).1 = Except.error e) :
    ∃ msg, e = Err.script msg ∧ strHasPref "Failed to parse audiobook page: " msg := by
  obtain ⟨r, log, hfa⟩ : ∃ r log, Rev2.fetchAudiobookDetailsFromHtml env url = (r, log) :=
    ⟨_, _, rfl⟩
  rw [hfa] at h
  change r = Except.error e at h
  subst h
  unfold Rev2.fetchAudiobookDetailsFromHtml at hfa
  simp only [] at hfa
  split at hfa
  · injection hfa with h1 h2
    injection h1 with h3
    exact ⟨_, h3.symm, ⟨_, rfl⟩⟩
  · injection hfa with h1 h2
    simp at h1

/-- Claim C2 (amended): chapter-detail resolution signals a fatal
error only when the underlying fetch fails or the requested chapter
index is not found; a chapter with no audio candidate is NOT an error
(see the counterexample: it resolves successfully with an empty source
list).  No NoPlayableSource failure exists in the code. -/
theorem claim_C2_amended (env : Rev2.DetailsEnv) (s : Rev2.Settings) (url : String) (e : Err)
    (h : (Rev2.getContentDetails env s url).1 = Except.error e) :
    ∃ msg, e = Err.script msg ∧
      (strHasPref "Failed to fetch audiobook details: " msg ∨
       strHasPref "Failed to parse audiobook details: " msg ∨
       strHasPref "Failed to parse audiobook page: " msg ∨
       strHasPref "Chapter not found: " msg) := by
  obtain ⟨r, log, hg⟩ : ∃ r log, Rev2.getContentDetails env s url = (r, log) := ⟨_, _, rfl⟩
  rw [hg] at h
  change r = Except.error e at h
  subst h
  unfold Rev2.getContentDetails at hg
  simp only [] at hg
  split at hg
  next pe plog heq =>
    injection hg with h1 h2
    injection h1 with h3
    subst h3
    have hapi : ∀ bid : String,
        Rev2.fetchAudiobookDetailsFromApi env bid = (Except.error pe, plog) →
        ∃ msg, pe = Err.script msg ∧
          (strHasPref "Failed to fetch audiobook details: " msg ∨
           strHasPref "Failed to parse audiobook details: " msg ∨
           strHasPref "Failed to parse audiobook page: " msg ∨
           strHasPref "Chapter not found: " msg) := by
      intro bid hb
      obtain ⟨msg, hmsg, hpref⟩ := rev2_fetchApi_error_shape env bid pe (by rw [hb])
      refine ⟨msg, hmsg, ?_⟩
      rcases hpref with ha | hb2
      · exact Or.inl ha
      · exact Or.inr (Or.inl hb2)
    have hhtml : Rev2.fetchAudiobookDetailsFromHtml env url = (Except.error pe, plog) →
        ∃ msg, pe = Err.script msg ∧
          (strHasPref "Failed to fetch audiobook details: " msg ∨
           strHasPref "Failed to parse audiobook details: " msg ∨
           strHasPref "Failed to parse audiobook page: " msg ∨
           strHasPref "Chapter not found: " msg) := by
      intro hb
      obtain ⟨msg, hmsg, hpref⟩ := rev2_fetchHtml_error_shape env url pe (by rw [hb])
      exact ⟨msg, hmsg, Or.inr (Or.inr (Or.inl hpref))⟩
    split at heq <;> split at heq
    · exact hapi _ heq
    · exact hhtml heq
    · exact hapi _ heq
    · exact hhtml heq
  next info plog heq =>
    split at hg
    · injection hg with h1 h2
      injection h1 with h3
      exact ⟨_, h3.symm, Or.inr (Or.inr (Or.inr ⟨_, rfl⟩))⟩
    · injection hg with h1 h2
      simp at h1

/-- Section with neither a direct file URL nor a section id. -/
def sectionC2 : ApiSection :=
  { id := none, title := some "Intro", listen_url := none, playtime := some "60", readers := [] }

def bookC2 : ApiBook :=
  { title := some "T", description := some "", url_iarchive := none,
    coverart_thumbnail := some "c", coverart_jpg := none, authors := [],
    sections := some [sectionC2] }

def envC2 : Rev2.DetailsEnv :=
  { get := fun _ => { isOk := true, code := 200, body := some { books := some [some bookC2] } }
    archive := fun _ => { isOk := false, code := 404, body := none }
    html := fun _ => { isOk := false, code := 404, dom := emptyDom } }

def urlC2 : String := "https://grayjay.internal/librivox/book/123?chapter=0"

/-- Claim C2 (counterexample): a chapter that resolves but carries
neither a direct audio file URL nor a section identifier does NOT
raise a NoPlayableSource error -- resolution returns a successful
chapter-details result whose list of playable sources is empty. -/
theorem claim_C2_counterexample :
    ((Rev2.getContentDetails envC2 { useHLS := true } urlC2).1.toOption.map
      (fun d => d.sources)) = some [] := by
  rfl

/-- Claim C2 (witness): the amended theorem evaluated at a concrete
transport failure (the structured endpoint answers 500). -/
def envC2err : Rev2.DetailsEnv :=
  { get := fun _ => { isOk := false, code := 500, body := none }
    archive := fun _ => { isOk := false, code := 404, body := none }
    html := fun _ => { isOk := false, code := 404, dom := emptyDom } }

def urlC2err : String := "https://librivox.org/some-book/?id=42&chapter=0"

theorem claim_C2_witness :
    ∃ msg, Err.script "Failed to fetch audiobook details: 500" = Err.script msg ∧
      (strHasPref "Failed to fetch audiobook details: " msg ∨
       strHasPref "Failed to parse audiobook details: " msg ∨
       strHasPref "Failed to parse audiobook page: " msg ∨
       strHasPref "Chapter not found: " msg) :=
  claim_C2_amended envC2err { useHLS := false } urlC2err
    (Err.script "Failed to fetch audiobook details: 500") (by rfl)

/-- The source-ordering policy the final revision implements (the
amended form of claim C7): the direct archive.org file source first
when the chapter has a file URL; then, when the chapter has a section
identifier, the HLS source only under the useHLS setting, followed by
the proxied mp3 source; a source whose input is absent is omitted. -/
def orderedSourcesSpec (useHLS : Bool) (c : Rev2.Chapter) : List Source :=
  (if c.chapterFile ≠ "" then
    [Source.audioUrl "audio (archive.org)" "audio/mpeg" "mp4a.40.2" c.chapterFile c.duration]
   else []) ++
  (if sTruthy c.section_id then
    (if useHLS then
      [Source.hls "HLS" (Rev2.proxyBase ++ c.section_id.getD "" ++ ".m3u8") c.duration]
     else []) ++
    [Source.audioUrl "audio (cached v2)" "audio/mpeg" "mp4a.40.2"
      (Rev2.proxyBase ++ c.section_id.getD "" ++ ".mp3") c.duration]
   else [])

/-- Claim C7 (amended): every successful chapter-details result
carries the source list prescribed by `orderedSourcesSpec` for the
resolved chapter: direct file first, then HLS gated on the useHLS
setting, then the proxied mp3; absent-input sources omitted. -/
theorem claim_C7_amended (env : Rev2.DetailsEnv) (s : Rev2.Settings) (url : String)
    (d : Rev2.VideoDetails)
    (h : (Rev2.getContentDetails env s url).1 = Except.ok d) :
    ∃ c : Rev2.Chapter, d.sources = orderedSourcesSpec s.useHLS c ∧
      d.duration = c.duration ∧ d.name = c.chapterName := by
  obtain ⟨r, log, hg⟩ : ∃ r log, Rev2.getContentDetails env s url = (r, log) := ⟨_, _, rfl⟩
  rw [hg] at h
  change r = Except.ok d at h
  subst h
  unfold Rev2.getContentDetails at hg
  simp only [] at hg
  split at hg
  next pe plog heq =>
    injection hg with h1 h2
    simp at h1
  next info plog heq =>
    split at hg
    · injection hg with h1 h2
      simp at h1
    · next c hc =>
      injection hg with h1 h2
      have h3 := Except.ok.inj h1
      refine ⟨c, ?_, ?_, ?_⟩
      · rw [← h3]; rfl
      · rw [← h3]
      · rw [← h3]

/-- Section carrying both a direct file URL and a section id. -/
def sectionC7 : ApiSection :=
  { id := some "55", title := some "One", listen_url := some "https://archive.org/f.mp3",
    playtime := some "120", readers := [] }

def bookC7 : ApiBook :=
  { title := some "B", description := some "", url_iarchive := none,
    coverart_thumbnail := some "c", coverart_jpg := none, authors := [],
    sections := some [sectionC7] }

def envC7 : Rev2.DetailsEnv :=
  { get := fun _ => { isOk := true, code := 200, body := some { books := some [some bookC7] } }
    archive := fun _ => { isOk := false, code := 404, body := none }
    html := fun _ => { isOk := false, code := 404, dom := emptyDom } }

def urlC7 : String := "https://grayjay.internal/librivox/book/7?chapter=0"

/-- Claim C7 (counterexample): with the useHLS capability enabled and
a chapter carrying both a direct file URL and a section identifier,
the produced source list puts the direct remote file FIRST, then HLS,
then the proxied stream -- not the claimed order (HLS first, proxied
second, direct file last). -/
theorem claim_C7_counterexample :
    ((Rev2.getContentDetails envC7 { useHLS := true } urlC7).1.toOption.map
        (fun d => d.sources)) =
      some [Source.audioUrl "audio (archive.org)" "audio/mpeg" "mp4a.40.2"
              "https://archive.org/f.mp3" 120,
            Source.hls "HLS" (Rev2.proxyBase ++ "55.m3u8") 120,
            Source.audioUrl "audio (cached v2)" "audio/mpeg" "mp4a.40.2"
              (Rev2.proxyBase ++ "55.mp3") 120] ∧
    ((Rev2.getContentDetails envC7 { useHLS := true } urlC7).1.toOption.map
        (fun d => d.sources)) ≠
      some [Source.hls "HLS" (Rev2.proxyBase ++ "55.m3u8") 120,
            Source.audioUrl "audio (cached v2)" "audio/mpeg" "mp4a.40.2"
              (Rev2.proxyBase ++ "55.mp3") 120,
            Source.audioUrl "audio (archive.org)" "audio/mpeg" "mp4a.40.2"
              "https://archive.org/f.mp3" 120] := by
  constructor
  · rfl
  · decide

/-- The successful chapter details of the C7 scenario. -/
def dC7 : Rev2.VideoDetails :=
  match (Rev2.getContentDetails envC7 { useHLS := true } urlC7).1 with
  | .ok d => d
  | .error _ =>
    { idv := "", name := "", description := "", authorIdv := "", authorName := "",
      authorUrl := "", url := "", duration := 0, thumbnail := "", sources := [],
      viewCount := 0 }

/-- Claim C7 (witness): the amended theorem evaluated at the C7
scenario. -/
theorem claim_C7_witness :
    ∃ c : Rev2.Chapter, dC7.sources = orderedSourcesSpec true c ∧
      dC7.duration = c.duration ∧ dC7.name = c.chapterName :=
  claim_C7_amended envC7 { useHLS := true } urlC7 dC7 (by rfl)

-- ====================== Claim C1 ======================

/-- A scrapeable book page with one chapter row (the HTML path would
succeed on it). -/
def rowC1 : ChapterRowDom :=
  { nameText := some "Chapter 1", nameHref := some "https://archive.org/c1.mp3",
    tdTexts := [some "1", some "Chapter 1", some "Alice", some "01:02:03"],
    readerLinks := [(some "Alice", some "https://librivox.org/reader/3")] }

def domC1 : BookPageDom :=
  { authorLinks := [(some "Author A", some "https://librivox.org/author/9")],
    coverSrc := some "cov.jpg", chapterRows := [rowC1], titleText := some "Moby",
    descriptionText := some "desc" }

/-- Structured endpoint down (500), book page reachable and
scrapeable. -/
def envC1 : Rev2.DetailsEnv :=
  { get := fun _ => { isOk := false, code := 500, body := none }
    archive := fun _ => { isOk := false, code := 404, body := none }
    html := fun _ => { isOk := true, code := 200, dom := domC1 } }

def urlC1 : String := "https://librivox.org/moby-dick/?id=99"

/-- Claim C1 (counterexample): for a book URL carrying an extractable
id whose structured endpoint call fails, resolution throws immediately
-- the original URL is never fetched as HTML even though scraping it
would have produced a details value with a non-empty chapter list, so
there is no HTML fallback step in the escalation. -/
theorem claim_C1_counterexample :
    (Rev2.getAudiobookCachedDetails envC1 Rev2.initialState urlC1).1 =
      Except.error (Err.script "Failed to fetch audiobook details: 500") ∧
    (Rev2.getAudiobookCachedDetails envC1 Rev2.initialState urlC1).2.2 =
      [Rev2.apiDetailsUrl "99"] ∧
    urlC1 ∉ (Rev2.getAudiobookCachedDetails envC1 Rev2.initialState urlC1).2.2 ∧
    ((Rev2.fetchAudiobookDetailsFromHtml envC1 urlC1).1.toOption.map
      (fun d => d.chapters.length)) = some 1 := by
  refine ⟨rfl, rfl, ?_, rfl⟩
  decide

/-- Claim C1 (amended): detail resolution selects its strategy from
the URL shape alone.  A URL with an extractable id is resolved only
through the structured endpoint; when that call fails the whole
resolution fails fatally, issuing exactly the one endpoint request and
never fetching the URL as HTML.  Only a URL without an extractable id
uses the HTML-scrape path.  This holds in the first revision (with a
prior cache-miss) and in the final revision. -/
theorem claim_C1_amended :
    (∀ (env : Rev2.DetailsEnv) (st : Rev2.State) (url id : String),
       extractId (some url) = some id →
       (env.get (Rev2.apiDetailsUrl id)).isOk = false →
       (Rev2.getAudiobookCachedDetails env st url).1 =
         Except.error (Err.script ("Failed to fetch audiobook details: " ++
           toString (env.get (Rev2.apiDetailsUrl id)).code)) ∧
       (Rev2.getAudiobookCachedDetails env st url).2.2 = [Rev2.apiDetailsUrl id]) ∧
    (∀ (env : Rev2.DetailsEnv) (st : Rev2.State) (url : String),
       extractId (some url) = none →
       (Rev2.getAudiobookCachedDetails env st url).1 =
         (Rev2.fetchAudiobookDetailsFromHtml env url).1 ∧
       (Rev2.getAudiobookCachedDetails env st url).2.2 =
         (Rev2.fetchAudiobookDetailsFromHtml env url).2) ∧
    (∀ (env : Rev1.DetailsEnv) (st : Rev1.State) (url id : String),
       lookup st.audiobookDetails url = none →
       extractId (some url) = some id →
       (env.get (Rev1.apiDetailsUrl id)).isOk = false →
       (Rev1.getAudiobookCachedDetails env st url).1 =
         Except.error (Err.script ("Failed to fetch audiobook details: " ++
           toString (env.get (Rev1.apiDetailsUrl id)).code)) ∧
       (Rev1.getAudiobookCachedDetails env st url).2.2 = [Rev1.apiDetailsUrl id]) := by
  refine ⟨?_, ?_, ?_⟩
  · intro env st url id hid hok
    constructor
    · simp [Rev2.getAudiobookCachedDetails, Rev2.fetchAudiobookDetailsFromApi, hid, hok]
    · simp [Rev2.getAudiobookCachedDetails, Rev2.fetchAudiobookDetailsFromApi, hid, hok]
  · intro env st url hid
    constructor
    · simp [Rev2.getAudiobookCachedDetails, hid]
    · simp [Rev2.getAudiobookCachedDetails, hid]
  · intro env st url id hlook hid hok
    constructor
    · simp [Rev1.getAudiobookCachedDetails, Rev1.fetchAudiobookDetailsFromApi, hlook, hid, hok]
    · simp [Rev1.getAudiobookCachedDetails, Rev1.fetchAudiobookDetailsFromApi, hlook, hid, hok]

/-- Claim C1 (witness): the id-branch clause of the amended theorem at
the concrete failing endpoint. -/
theorem claim_C1_witness :
    (Rev2.getAudiobookCachedDetails envC1 Rev2.initialState urlC1).1 =
      Except.error (Err.script ("Failed to fetch audiobook details: " ++
        toString (envC1.get (Rev2.apiDetailsUrl "99")).code)) ∧
    (Rev2.getAudiobookCachedDetails envC1 Rev2.initialState urlC1).2.2 =
      [Rev2.apiDetailsUrl "99"] :=
  claim_C1_amended.1 envC1 Rev2.initialState urlC1 "99" (by rfl) (by rfl)

-- ====================== Claim C3 ======================

/-- Advanced-search endpoint answering 200 with a malformed JSON
body. -/
def envC3 : P0.Env :=
  { get := fun _ => { isOk := true, code := 200, body := none }
    parseCatalog := fun _ => [] }

/-- Claim C3 (counterexample): the part_000 `source.search` listing
operation THROWS on a malformed JSON response instead of degrading to
an empty page -- there is no try/catch around its `JSON.parse`. -/
theorem claim_C3_counterexample :
    (P0.search envC3 "" "alice").1 = Except.error (Err.script jsonParseErrMsg) := rfl

theorem limitOr_ten_ne_zero (n : Option Nat) : limitOr n 10 ≠ 0 := by
  cases n with
  | none => simp [limitOr]
  | some k =>
    by_cases hk : k = 0
    · simp [limitOr, hk]
    · simp [limitOr, hk]

/-- Claim C3 (amended): in the final revision the home and search
pagers never throw -- a non-success status or malformed body degrades
to an empty result list with `hasMore=false` (their bodies are total
up to the caught `JSON.parse`).  The search of the part_000 revision,
however, propagates the parse failure as an exception (see the
counterexample). -/
theorem claim_C3_amended :
    (∀ (env : Rev2.ListEnv) (lang : Option String) (latest : List String)
        (p : Rev2.HomePager),
       ((env.get (Rev2.homeUrl p.offset lang)).isOk = false ∨
        (env.get (Rev2.homeUrl p.offset lang)).body = none) →
       (Rev2.homeNextPage env lang latest p).results = [] ∧
       (Rev2.homeNextPage env lang latest p).hasMore = false) ∧
    (∀ (env : Rev2.ListEnv) (p : Rev2.SearchPager),
       ((env.get (Rev2.searchUrl p.context (p.context.offset.getD 0))).isOk = false ∨
        (env.get (Rev2.searchUrl p.context (p.context.offset.getD 0))).body = none) →
       (Rev2.searchNextPage env p).videos = [] ∧
       (Rev2.searchNextPage env p).hasMore = false) := by
  constructor
  · intro env lang latest p hfail
    rcases hfail with hok | hbody
    · constructor
      · simp [Rev2.homeNextPage, hok]
      · simp [Rev2.homeNextPage, hok]
    · by_cases hok : (env.get (Rev2.homeUrl p.offset lang)).isOk = true
      · constructor
        · simp [Rev2.homeNextPage, hok, hbody]
        · simp [Rev2.homeNextPage, hok, hbody]
      · have hok2 : (env.get (Rev2.homeUrl p.offset lang)).isOk = false :=
          Bool.not_eq_true _ ▸ (by simpa using hok)
        constructor
        · simp [Rev2.homeNextPage, hok2]
        · simp [Rev2.homeNextPage, hok2]
  · intro env p hfail
    rcases hfail with hok | hbody
    · constructor
      · simp [Rev2.searchNextPage, hok]
      · simp [Rev2.searchNextPage, hok]
        exact fun h => absurd h.symm (limitOr_ten_ne_zero p.context.limit)
    · by_cases hok : (env.get (Rev2.searchUrl p.context (p.context.offset.getD 0))).isOk = true
      · constructor
        · simp [Rev2.searchNextPage, hok, hbody]
        · simp [Rev2.searchNextPage, hok, hbody]
      · have hok2 : (env.get (Rev2.searchUrl p.context (p.context.offset.getD 0))).isOk = false := by
          simpa using hok
        constructor
        · simp [Rev2.searchNextPage, hok2]
        · simp [Rev2.searchNextPage, hok2]
          exact fun h => absurd h.symm (limitOr_ten_ne_zero p.context.limit)

/-- A failing listing environment for the C3 witness. -/
def envC3w : Rev2.ListEnv :=
  { get := fun _ => { isOk := false, code := 503, body := none } }

def pC3w : Rev2.SearchPager :=
  { videos := [], hasMore := true,
    context := { baseUrl := "https://librivox-api.openaudiobooks.org/api/feed/audiobooks/search",
                 query := some "alice", filterCb := none, limit := some 50, offset := some 0 } }

/-- Claim C3 (witness): both degrade clauses of the amended theorem at
a concrete 503 response. -/
theorem claim_C3_witness :
    ((Rev2.homeNextPage envC3w none [] { results := [], hasMore := true, offset := 0 }).results
        = [] ∧
     (Rev2.homeNextPage envC3w none [] { results := [], hasMore := true, offset := 0 }).hasMore
        = false) ∧
    ((Rev2.searchNextPage envC3w pC3w).videos = [] ∧
     (Rev2.searchNextPage envC3w pC3w).hasMore = false) :=
  ⟨claim_C3_amended.1 envC3w none [] { results := [], hasMore := true, offset := 0 }
     (Or.inl rfl),
   claim_C3_amended.2 envC3w pC3w (Or.inl rfl)⟩

-- ====================== Claim C5 ======================

/-- A full catalog page whose ten entries are all JSON nulls. -/
def envC5 : Rev2.ListEnv :=
  { get := fun _ =>
      { isOk := true, code := 200, body := some { books := some (List.replicate 10 none) } } }

def pC5 : Rev2.HomePager := { results := [], hasMore := true, offset := 0 }

/-- Claim C5 (counterexample): the part_001 home pager sets `hasMore`
to false although the last fetched page returned exactly the requested
limit (ten items, all filtered out as null conversions) -- not
strictly fewer. -/
theorem claim_C5_counterexample :
    (P1.homeNextPage envC5 none pC5).hasMore = false ∧
    ((envC5.get (Rev2.homeUrl 0 none)).body.map (fun b => (b.books.getD []).length)) =
      some Rev2.homePageSize := by
  exact ⟨rfl, rfl⟩

/-- Claim C5 (amended): `hasMore` heuristics per pager.  The search
pager sets `hasMore` exactly when the raw response length equals the
requested limit.  The part_001 home pager sets `hasMore` exactly when
the page is well-formed, non-empty AND at least one entry survives the
null-conversion filter -- so `hasMore` can be false even when the page
returned exactly the requested number of items. -/
theorem claim_C5_amended :
    (∀ (env : Rev2.ListEnv) (p : Rev2.SearchPager),
       (Rev2.searchNextPage env p).hasMore = true ↔
       ((env.get (Rev2.searchUrl p.context (p.context.offset.getD 0))).isOk = true ∧
        ∃ body, (env.get (Rev2.searchUrl p.context (p.context.offset.getD 0))).body = some body ∧
          (∃ bs, seqSomes (body.books.getD []) = some bs) ∧
          (body.books.getD []).length = limitOr p.context.limit 10)) ∧
    (∀ (env : Rev2.ListEnv) (lang : Option String) (p : Rev2.HomePager),
       (P1.homeNextPage env lang p).hasMore = true ↔
       ((env.get (Rev2.homeUrl p.offset lang)).isOk = true ∧
        ∃ body books, (env.get (Rev2.homeUrl p.offset lang)).body = some body ∧
          body.books = some books ∧ 0 < books.length ∧
          (books.map audiobookToPlaylist).filter (fun b => b.isSome) ≠ [])) := by
  constructor
  · intro env p
    by_cases hok : (env.get (Rev2.searchUrl p.context (p.context.offset.getD 0))).isOk = true
    · rcases hbody : (env.get (Rev2.searchUrl p.context (p.context.offset.getD 0))).body
        with _ | body
      · simp [Rev2.searchNextPage, hok, hbody]
      · rcases hseq : seqSomes (body.books.getD []) with _ | bs
        · simp [Rev2.searchNextPage, hok, hbody, hseq]
        · simp [Rev2.searchNextPage, hok, hbody, hseq]
    · have hok2 : (env.get (Rev2.searchUrl p.context (p.context.offset.getD 0))).isOk = false := by
        simpa using hok
      simp [Rev2.searchNextPage, hok2]
      exact fun h => absurd h.symm (limitOr_ten_ne_zero p.context.limit)
  · intro env lang p
    by_cases hok : (env.get (Rev2.homeUrl p.offset lang)).isOk = true
    · rcases hbody : (env.get (Rev2.homeUrl p.offset lang)).body with _ | body
      · simp [P1.homeNextPage, hok, hbody]
      · rcases hbooks : body.books with _ | books
        · simp [P1.homeNextPage, hok, hbody, hbooks]
        · by_cases hlen : 0 < books.length
          · simp [P1.homeNextPage, hok, hbody, hbooks, hlen]
            rw [List.length_pos, Ne, List.filter_eq_nil_iff]
            simp [Option.isSome_iff_ne_none]
          · simp [P1.homeNextPage, hok, hbody, hbooks, hlen]
    · have hok2 : (env.get (Rev2.homeUrl p.offset lang)).isOk = false := by
        simpa using hok
      simp [P1.homeNextPage, hok2]

/-- A well-formed two-entry response for the C5 witness. -/
def bookRecW : BookRec :=
  { id := some "3", title := some "W", url_librivox := some "https://librivox.org/w/",
    coverart_thumbnail := some "c", coverart_jpg := none, authors := [], sections := none }

def envC5w : Rev2.ListEnv :=
  { get := fun _ =>
      { isOk := true, code := 200,
        body := some { books := some [some bookRecW, some bookRecW] } } }

def pC5w : Rev2.SearchPager :=
  { videos := [], hasMore := true,
    context := { baseUrl := "b", query := some "w", filterCb := none, limit := some 2,
                 offset := some 0 } }

/-- Claim C5 (witness): the search characterization applied forward at
a full page of exactly `limit` items, and the home characterization at
the same response. -/
theorem claim_C5_witness :
    (Rev2.searchNextPage envC5w pC5w).hasMore = true ∧
    (P1.homeNextPage envC5w none pC5).hasMore = true := by
  constructor
  · exact (claim_C5_amended.1 envC5w pC5w).mpr
      ⟨rfl, { books := some [some bookRecW, some bookRecW] }, rfl,
       ⟨[bookRecW, bookRecW], rfl⟩, rfl⟩
  · exact (claim_C5_amended.2 envC5w none pC5).mpr
      ⟨rfl, { books := some [some bookRecW, some bookRecW] }, [some bookRecW, some bookRecW],
       rfl, rfl, by decide, by decide⟩

-- ====================== Claim C10 ======================

/-- Every element of the initial latest segment passed the
`filter(Boolean)` and is non-null. -/
theorem rev1_initialLatest_isSome (env : Rev1.HomeEnv) (st : Rev1.State)
    (x : Option PlatformPlaylist) (hx : x ∈ (Rev1.initialLatest env st).1) :
    x.isSome = true := by
  unfold Rev1.initialLatest at hx
  by_cases hok : env.latest.isOk = true
  · rcases hbody : env.latest.body with _ | latestData
    · simp [hok, hbody] at hx
    · simp only [hok, hbody, if_true] at hx
      simp only [List.mem_filter] at hx
      exact hx.2
  · have hok2 : env.latest.isOk = false := by simpa using hok
    simp [hok2] at hx

/-- Every element of the initial regular segment passed the
`book && book.id && ...` filter and is non-null. -/
theorem rev1_initialRegular_isSome (env : Rev1.HomeEnv) (ids : List String)
    (x : Option PlatformPlaylist) (hx : x ∈ Rev1.initialRegular env ids) :
    x.isSome = true := by
  unfold Rev1.initialRegular at hx
  by_cases hok : (env.all (Rev1.allUrl Rev1.pageSize 0)).isOk = true
  · rcases hbody : (env.all (Rev1.allUrl Rev1.pageSize 0)).body with _ | otherData
    · simp [hok, hbody] at hx
    · rcases hbooks : otherData.books with _ | books
      · simp [hok, hbody, hbooks] at hx
      · simp only [hok, hbody, hbooks, if_true] at hx
        simp only [List.mem_filter] at hx
        cases x with
        | none => simp at hx
        | some pl => rfl
  · have hok2 : (env.all (Rev1.allUrl Rev1.pageSize 0)).isOk = false := by simpa using hok
    simp [hok2] at hx

/-- Claim C10: the final-revision `audiobookToPlaylist` returns null
exactly when its input record is null/undefined (it is a total
function of the record, so it never throws), and the home pager call
sites filter out null conversions: no element of a page handed to the
host is null -- shown for the final-revision nextPage and the
first-revision loadInitialPage. -/
theorem claim_C10_nonnull :
    (∀ b : Option BookRec, audiobookToPlaylist b = none ↔ b = none) ∧
    (∀ (env : Rev2.ListEnv) (lang : Option String) (latest : List String)
       (p : Rev2.HomePager) (x : Option PlatformPlaylist),
       x ∈ (Rev2.homeNextPage env lang latest p).results → x.isSome = true) ∧
    (∀ (env : Rev1.HomeEnv) (st : Rev1.State) (x : Option PlatformPlaylist),
       x ∈ (Rev1.loadInitialPage env st).2.1.results → x.isSome = true) := by
  refine ⟨?_, ?_, ?_⟩
  · intro b
    cases b with
    | none => simp [audiobookToPlaylist]
    | some bk => simp [audiobookToPlaylist]
  · intro env lang latest p x hx
    unfold Rev2.homeNextPage at hx
    by_cases hok : (env.get (Rev2.homeUrl p.offset lang)).isOk = true
    · rcases hbody : (env.get (Rev2.homeUrl p.offset lang)).body with _ | body
      · simp [hok, hbody] at hx
      · rcases hbooks : body.books with _ | books
        · simp [hok, hbody, hbooks] at hx
        · by_cases hlen : books.length > 0
          · simp only [hok, hbody, hbooks, hlen, if_true] at hx
            simp only [List.mem_filter] at hx
            cases x with
            | none => simp at hx
            | some pl => rfl
          · simp [hok, hbody, hbooks, hlen] at hx
    · have hok2 : (env.get (Rev2.homeUrl p.offset lang)).isOk = false := by simpa using hok
      simp [hok2] at hx
  · intro env st x hx
    unfold Rev1.loadInitialPage at hx
    simp only [List.mem_append] at hx
    rcases hx with h1 | h2
    · exact rev1_initialLatest_isSome env st x h1
    · exact rev1_initialRegular_isSome env (Rev1.initialLatest env st).2 x h2

/-- Concrete page for the C10 witness. -/
def envC10w : Rev2.ListEnv :=
  { get := fun _ =>
      { isOk := true, code := 200, body := some { books := some [some bookRecW, none] } } }

def xC10w : Option PlatformPlaylist :=
  (Rev2.homeNextPage envC10w none [] pC5).results.headD none

/-- Claim C10 (witness): the null input maps to null, and the head of
a concrete returned page (whose raw response contained a null entry)
is non-null. -/
theorem claim_C10_witness :
    audiobookToPlaylist none = none ∧ xC10w.isSome = true :=
  ⟨(claim_C10_nonnull.1 none).mpr rfl,
   claim_C10_nonnull.2.1 envC10w none [] pC5 xC10w (by decide)⟩

-- ====================== Claim C4 ======================

theorem lookup_assocSet_self (k : String) (v : α) :
    ∀ m : List (String × α), lookup (assocSet m k v) k = some v := by
  intro m
  induction m with
  | nil => simp [lookup, assocSet, List.find?]
  | cons kv rest ih =>
    by_cases h : kv.1 = k
    · simp [assocSet, h, lookup, List.find?]
    · simp only [assocSet, h, if_false]
      have hstep : lookup (kv :: assocSet rest k v) k = lookup (assocSet rest k v) k := by
        simp [lookup, List.find?, h]
      rw [hstep]
      exact ih

/-- A successful first-revision API fetch stores the returned details
under the URL key. -/
theorem rev1_fetchApi_ok_stores (env : Rev1.DetailsEnv) (st : Rev1.State) (id url : String)
    (d : Rev1.Details)
    (h : (Rev1.fetchAudiobookDetailsFromApi env st id url).1 = Except.ok d) :
    lookup (Rev1.fetchAudiobookDetailsFromApi env st id url).2.1.audiobookDetails url =
      some d := by
  obtain ⟨r, st2, log, heq⟩ :
      ∃ r st2 log, Rev1.fetchAudiobookDetailsFromApi env st id url = (r, st2, log) :=
    ⟨_, _, _, rfl⟩
  rw [heq] at h ⊢
  change r = Except.ok d at h
  subst h
  unfold Rev1.fetchAudiobookDetailsFromApi at heq
  simp only [] at heq
  split at heq
  · injection heq with h1 h2; simp at h1
  · split at heq
    · injection heq with h1 h2; simp at h1
    · split at heq
      · injection heq with h1 h2; simp at h1
      · split at heq
        · injection heq with h1 h2; simp at h1
        · split at heq
          · injection heq with h1 h2; simp at h1
          · injection heq with h1 h2
            have h3 := Except.ok.inj h1
            injection h2 with h4 h5
            rw [← h4, ← h3]
            exact lookup_assocSet_self url _ st.audiobookDetails

/-- A successful first-revision HTML scrape stores the returned
details under the URL key. -/
theorem rev1_fetchHtml_ok_stores (env : Rev1.DetailsEnv) (st : Rev1.State) (url : String)
    (d : Rev1.Details)
    (h : (Rev1.fetchAudiobookDetailsFromHtml env st url).1 = Except.ok d) :
    lookup (Rev1.fetchAudiobookDetailsFromHtml env st url).2.1.audiobookDetails url =
      some d := by
  obtain ⟨r, st2, log, heq⟩ :
      ∃ r st2 log, Rev1.fetchAudiobookDetailsFromHtml env st url = (r, st2, log) :=
    ⟨_, _, _, rfl⟩
  rw [heq] at h ⊢
  change r = Except.ok d at h
  subst h
  unfold Rev1.fetchAudiobookDetailsFromHtml at heq
  simp only [] at heq
  split at heq
  · injection heq with h1 h2; simp at h1
  · injection heq with h1 h2
    have h3 := Except.ok.inj h1
    injection h2 with h4 h5
    rw [← h4, ← h3]
    exact lookup_assocSet_self url _ st.audiobookDetails

/-- The final-revision structured fetch always issues at least one
request. -/
theorem rev2_fetchApi_log_ne_nil (env : Rev2.DetailsEnv) (id : String) :
    (Rev2.fetchAudiobookDetailsFromApi env id).2 ≠ [] := by
  obtain ⟨r, log, heq⟩ :
      ∃ r log, Rev2.fetchAudiobookDetailsFromApi env id = (r, log) := ⟨_, _, rfl⟩
  rw [heq]
  intro hnil
  simp only at hnil
  subst hnil
  unfold Rev2.fetchAudiobookDetailsFromApi at heq
  simp only [] at heq
  split at heq
  · injection heq with h1 h2; simp at h2
  · split at heq
    · injection heq with h1 h2; simp at h2
    · split at heq
      · injection heq with h1 h2; simp at h2
      · split at heq
        · injection heq with h1 h2; simp at h2
        · injection heq with h1 h2; simp at h2

/-- The final-revision HTML scrape always issues the page request. -/
theorem rev2_fetchHtml_log_ne_nil (env : Rev2.DetailsEnv) (url : String) :
    (Rev2.fetchAudiobookDetailsFromHtml env url).2 ≠ [] := by
  obtain ⟨r, log, heq⟩ :
      ∃ r log, Rev2.fetchAudiobookDetailsFromHtml env url = (r, log) := ⟨_, _, rfl⟩
  rw [heq]
  intro hnil
  simp only at hnil
  subst hnil
  unfold Rev2.fetchAudiobookDetailsFromHtml at heq
  simp only [] at heq
  split at heq
  · injection heq with h1 h2; simp at h2
  · injection heq with h1 h2; simp at h2

/-- The reader-info fetch always issues exactly the profile request. -/
theorem rev2_fetchReaderInfo_log (env : Rev2.ReaderEnv) (rid : String) :
    (Rev2.fetchReaderInfo env rid).2 = [readerBase ++ "/" ++ rid] := by
  unfold Rev2.fetchReaderInfo
  simp only []
  split
  · rfl
  · rfl

/-- Claim C4 (amended): the book-detail get-or-fetch of the first
revision is a true cache -- a hit returns the stored value with no
request and no state change, a miss resolves (structured or HTML by
URL shape) and stores the result under the URL key -- and the reader
lookup of the final revision is likewise cached by reader id; but the
book-detail path of the final revision always fetches (its request log
is never empty) and never consults or updates the persisted state. -/
theorem claim_C4_amended :
    (∀ (env : Rev1.DetailsEnv) (st : Rev1.State) (url : String) (d : Rev1.Details),
       lookup st.audiobookDetails url = some d →
       Rev1.getAudiobookCachedDetails env st url = (Except.ok d, st, [])) ∧
    (∀ (env : Rev1.DetailsEnv) (st : Rev1.State) (url id : String) (d : Rev1.Details),
       lookup st.audiobookDetails url = none →
       extractId (some url) = some id →
       (Rev1.fetchAudiobookDetailsFromApi env st id url).1 = Except.ok d →
       (Rev1.getAudiobookCachedDetails env st url).1 = Except.ok d ∧
       lookup (Rev1.getAudiobookCachedDetails env st url).2.1.audiobookDetails url = some d) ∧
    (∀ (env : Rev1.DetailsEnv) (st : Rev1.State) (url : String) (d : Rev1.Details),
       lookup st.audiobookDetails url = none →
       extractId (some url) = none →
       (Rev1.fetchAudiobookDetailsFromHtml env st url).1 = Except.ok d →
       (Rev1.getAudiobookCachedDetails env st url).1 = Except.ok d ∧
       lookup (Rev1.getAudiobookCachedDetails env st url).2.1.audiobookDetails url = some d) ∧
    (∀ (env : Rev2.ReaderEnv) (st : Rev2.State) (url : String) (r : Rev2.ReaderInfo),
       lookup st.readers ((extractReaderIdFromUrl (some url)).getD "null") = some r →
       (Rev2.getReaderChannel env st url).2.1 = st ∧
       (Rev2.getReaderChannel env st url).2.2 = [] ∧
       (Rev2.getReaderChannel env st url).1.name = r.name ++ " (reader)") ∧
    (∀ (env : Rev2.ReaderEnv) (st : Rev2.State) (url : String),
       lookup st.readers ((extractReaderIdFromUrl (some url)).getD "null") = none →
       lookup (Rev2.getReaderChannel env st url).2.1.readers
           ((extractReaderIdFromUrl (some url)).getD "null") =
         some (Rev2.fetchReaderInfo env
           ((extractReaderIdFromUrl (some url)).getD "null")).1 ∧
       (Rev2.getReaderChannel env st url).2.2 ≠ []) ∧
    (∀ (env : Rev2.DetailsEnv) (st : Rev2.State) (url : String),
       (Rev2.getAudiobookCachedDetails env st url).2.1 = st ∧
       (Rev2.getAudiobookCachedDetails env st url).2.2 ≠ []) := by
  refine ⟨?_, ?_, ?_, ?_, ?_, ?_⟩
  · intro env st url d h
    simp [Rev1.getAudiobookCachedDetails, h]
  · intro env st url id d hlook hid hok
    constructor
    · simp [Rev1.getAudiobookCachedDetails, hlook, hid]
      exact hok
    · simp only [Rev1.getAudiobookCachedDetails, hlook, hid]
      exact rev1_fetchApi_ok_stores env st id url d hok
  · intro env st url d hlook hid hok
    constructor
    · simp [Rev1.getAudiobookCachedDetails, hlook, hid]
      exact hok
    · simp only [Rev1.getAudiobookCachedDetails, hlook, hid]
      exact rev1_fetchHtml_ok_stores env st url d hok
  · intro env st url r h
    refine ⟨?_, ?_, ?_⟩
    · simp [Rev2.getReaderChannel, h]
    · simp [Rev2.getReaderChannel, h]
    · simp [Rev2.getReaderChannel, h]
  · intro env st url h
    constructor
    · simp only [Rev2.getReaderChannel, h]
      exact lookup_assocSet_self _ _ st.readers
    · simp only [Rev2.getReaderChannel, h]
      rw [rev2_fetchReaderInfo_log]
      simp
  · intro env st url
    rcases hid : extractId (some url) with _ | id
    · constructor
      · simp [Rev2.getAudiobookCachedDetails, hid]
      · simp only [Rev2.getAudiobookCachedDetails, hid]
        exact rev2_fetchHtml_log_ne_nil env url
    · constructor
      · simp [Rev2.getAudiobookCachedDetails, hid]
      · simp only [Rev2.getAudiobookCachedDetails, hid]
        exact rev2_fetchApi_log_ne_nil env id

/-- A persisted state carrying a cached detail for the URL, and an
endpoint answering different (fresh) details. -/
def dCachedC4 : Rev2.Details :=
  { viewCount := -1, title := "CACHED", description := "", authorThumbnailUrl := "",
    authorName := "", authorUrl := "", authors := [], bookCoverUrl := "", chapters := [] }

def stC4 : Rev2.State :=
  { audiobookDetails := [("https://librivox.org/b/?id=5", dCachedC4)], authors := [],
    readers := [], latestReleaseIds := [] }

def bookC4 : ApiBook :=
  { title := some "FRESH", description := none, url_iarchive := none,
    coverart_thumbnail := some "c", coverart_jpg := none, authors := [],
    sections := some [] }

def envC4 : Rev2.DetailsEnv :=
  { get := fun _ => { isOk := true, code := 200, body := some { books := some [some bookC4] } }
    archive := fun _ => { isOk := false, code := 404, body := none }
    html := fun _ => { isOk := false, code := 404, dom := emptyDom } }

def urlC4 : String := "https://librivox.org/b/?id=5"

/-- Claim C4 (counterexample): in the final revision, a detail lookup
whose key IS present in the persisted cache still performs a network
request, returns the freshly fetched value rather than the stored one,
and leaves the cache untouched (nothing is stored either). -/
theorem claim_C4_counterexample :
    lookup stC4.audiobookDetails urlC4 = some dCachedC4 ∧
    (Rev2.getAudiobookCachedDetails envC4 stC4 urlC4).2.2 = [Rev2.apiDetailsUrl "5"] ∧
    ((Rev2.getAudiobookCachedDetails envC4 stC4 urlC4).1.toOption.map (fun d => d.title)) =
      some "FRESH" ∧
    dCachedC4.title = "CACHED" ∧
    (Rev2.getAudiobookCachedDetails envC4 stC4 urlC4).2.1 = stC4 := by
  exact ⟨rfl, rfl, rfl, rfl, rfl⟩

/-- Concrete cached state for the C4 witness (first revision). -/
def dR1C4 : Rev1.Details :=
  { viewCount := -1, title := "Stored", description := "", authorThumbnailUrl := "",
    authorName := "", authorUrl := "", bookCoverUrl := "", chapters := [] }

def stR1C4 : Rev1.State :=
  { audiobookDetails := [("https://librivox.org/u/", dR1C4)], authors := [],
    latestReleaseIds := [] }

def envR1C4 : Rev1.DetailsEnv :=
  { get := fun _ => { isOk := false, code := 404, body := none }
    archive := fun _ => { isOk := false, code := 404, body := none }
    html := fun _ => { isOk := false, code := 404, dom := emptyDom } }

/-- Claim C4 (witness): the cache-hit clause of the amended theorem at
a concrete stored entry (the stored value is returned with no request
and no state change, even though every endpoint of the environment is
down). -/
theorem claim_C4_witness :
    Rev1.getAudiobookCachedDetails envR1C4 stR1C4 "https://librivox.org/u/" =
      (Except.ok dR1C4, stR1C4, []) :=
  claim_C4_amended.1 envR1C4 stR1C4 "https://librivox.org/u/" dR1C4 (by rfl)

-- ====================== Claim C6 ======================

theorem contains_of_mem {l : List String} {x : String} (h : x ∈ l) :
    l.contains x = true :=
  List.elem_iff.mpr h

/-- The dedup set only grows while the latest-releases list is
processed. -/
theorem processLatest_ids_mono :
    ∀ (l : List (Option BookRec)) (ids : List String) (x : String),
      x ∈ ids → x ∈ (Rev1.processLatest l ids).2 := by
  intro l
  induction l with
  | nil => intro ids x hx; exact hx
  | cons b rest ih =>
    intro ids x hx
    simp only [Rev1.processLatest]
    apply ih
    rcases hb : Rev1.audiobookToPlaylist b with _ | pl
    · simpa using hx
    · by_cases hidv : pl.idv = ""
      · simp [hidv]
        exact hx
      · simp [hidv]
        exact mem_setAdd_of_mem pl.idv hx

/-- Every latest-release playlist surfaced with a non-empty id ends up
in the dedup set produced by the pass. -/
theorem processLatest_surfaced :
    ∀ (l : List (Option BookRec)) (ids : List String) (pl : PlatformPlaylist),
      some pl ∈ (Rev1.processLatest l ids).1 → pl.idv ≠ "" →
      pl.idv ∈ (Rev1.processLatest l ids).2 := by
  intro l
  induction l with
  | nil =>
    intro ids pl h hne
    simp [Rev1.processLatest] at h
  | cons b rest ih =>
    intro ids pl hmem hne
    rcases hb : Rev1.audiobookToPlaylist b with _ | pl0
    · simp only [Rev1.processLatest, hb, Option.map_none'] at hmem ⊢
      rcases List.mem_cons.mp hmem with h1 | h2
      · exact absurd h1.symm (by simp)
      · exact ih ids pl h2 hne
    · simp only [Rev1.processLatest, hb, Option.map_some'] at hmem ⊢
      rcases List.mem_cons.mp hmem with h1 | h2
      · have hpl : pl = { pl0 with name := "New: " ++ pl0.name } := by
          injection h1 with h1a
        have hidv : pl.idv = pl0.idv := by rw [hpl]
        have hne0 : ¬ pl0.idv = "" := by rw [← hidv]; exact hne
        rw [if_pos hne0]
        apply processLatest_ids_mono
        rw [hidv]
        exact mem_setAdd_self ids pl0.idv
      · by_cases hidv0 : pl0.idv = ""
        · rw [if_neg (by simpa using hidv0)] at h2 ⊢
          exact ih ids pl h2 hne
        · rw [if_pos hidv0] at h2 ⊢
          exact ih (setAdd ids pl0.idv) pl h2 hne

/-- A non-empty id surfaced in the initial latest segment is in the
updated dedup set. -/
theorem initialLatest_surfaced (env : Rev1.HomeEnv) (st : Rev1.State)
    (pl : PlatformPlaylist) (h : some pl ∈ (Rev1.initialLatest env st).1)
    (hne : pl.idv ≠ "") : pl.idv ∈ (Rev1.initialLatest env st).2 := by
  unfold Rev1.initialLatest at h ⊢
  by_cases hok : env.latest.isOk = true
  · rcases hbody : env.latest.body with _ | latestData
    · simp [hok, hbody] at h
    · simp only [hok, hbody, if_true] at h ⊢
      exact processLatest_surfaced latestData st.latestReleaseIds pl
        (List.mem_of_mem_filter h) hne
  · have hok2 : env.latest.isOk = false := by simpa using hok
    simp [hok2] at h

/-- Every entry of the initial regular-catalog segment has an id
outside the dedup set it was filtered against. -/
theorem initialRegular_excludes (env : Rev1.HomeEnv) (ids : List String)
    (q : PlatformPlaylist) (h : some q ∈ Rev1.initialRegular env ids) :
    q.idv ∉ ids := by
  unfold Rev1.initialRegular at h
  by_cases hok : (env.all (Rev1.allUrl Rev1.pageSize 0)).isOk = true
  · rcases hbody : (env.all (Rev1.allUrl Rev1.pageSize 0)).body with _ | otherData
    · simp [hok, hbody] at h
    · rcases hbooks : otherData.books with _ | books
      · simp [hok, hbody, hbooks] at h
      · simp only [hok, hbody, hbooks, if_true] at h
        have hpred := List.of_mem_filter h
        simp only [Bool.not_eq_true'] at hpred
        intro hm
        rw [contains_of_mem hm] at hpred
        cases hpred
  · have hok2 : (env.all (Rev1.allUrl Rev1.pageSize 0)).isOk = false := by simpa using hok
    simp [hok2] at h

/-- Every entry of a later catalog page has an id outside the dedup
set of the state it was fetched under. -/
theorem loadMoreBooks_excludes (env : Rev1.HomeEnv) (st : Rev1.State) (hp : Rev1.HomePage)
    (q : PlatformPlaylist) (h : some q ∈ (Rev1.loadMoreBooks env st hp).1.results) :
    q.idv ∉ st.latestReleaseIds := by
  unfold Rev1.loadMoreBooks at h
  by_cases hok : (env.all (Rev1.allUrl Rev1.pageSize hp.offset)).isOk = true
  · rcases hbody : (env.all (Rev1.allUrl Rev1.pageSize hp.offset)).body with _ | data
    · simp [hok, hbody] at h
    · rcases hbooks : data.books with _ | books
      · simp [hok, hbody, hbooks] at h
      · by_cases hlen : books.length > 0
        · simp only [hok, hbody, hbooks, hlen, if_true] at h
          have hpred := List.of_mem_filter h
          simp only [Bool.not_eq_true'] at hpred
          intro hm
          rw [contains_of_mem hm] at hpred
          cases hpred
        · simp [hok, hbody, hbooks, hlen] at h
  · have hok2 : (env.all (Rev1.allUrl Rev1.pageSize hp.offset)).isOk = false := by simpa using hok
    simp [hok2] at h

/-- The exclusion holds for every page of an iterated session. -/
theorem runMore_excludes (env : Rev1.HomeEnv) (st : Rev1.State) :
    ∀ (n : Nat) (hp : Rev1.HomePage) (page : List (Option PlatformPlaylist))
      (q : PlatformPlaylist), page ∈ Rev1.runMore env n st hp → some q ∈ page →
      q.idv ∉ st.latestReleaseIds := by
  intro n
  induction n with
  | zero => intro hp page q hpage _; simp [Rev1.runMore] at hpage
  | succ m ih =>
    intro hp page q hpage hq
    simp only [Rev1.runMore] at hpage
    rcases List.mem_cons.mp hpage with h1 | h2
    · subst h1
      exact loadMoreBooks_excludes env st hp q hq
    · exact ih _ page q h2 hq

/-- Claim C6 (amended): within one session, every latest-release entry
surfaced with a NON-EMPTY canonical id is added to the persisted dedup
set, and both the initial regular-catalog segment and every later
catalog page filter out entries whose id is in that set -- so such an
id never reappears.  An entry whose playlist id is empty (a record
without `url_librivox`) is surfaced but not deduplicated (see the
counterexample). -/
theorem claim_C6_amended (env : Rev1.HomeEnv) (st : Rev1.State) (n : Nat)
    (pl q : PlatformPlaylist)
    (hlatest : some pl ∈ (Rev1.initialLatest env st).1)
    (hne : pl.idv ≠ "")
    (hq : some q ∈ Rev1.initialRegular env (Rev1.initialLatest env st).2 ∨
          ∃ page ∈ Rev1.runMore env n (Rev1.loadInitialPage env st).1
              (Rev1.loadInitialPage env st).2.1, some q ∈ page) :
    q.idv ≠ pl.idv := by
  have hmem : pl.idv ∈ (Rev1.initialLatest env st).2 :=
    initialLatest_surfaced env st pl hlatest hne
  rcases hq with hreg | ⟨page, hpage, hqq⟩
  · intro hEq
    exact (initialRegular_excludes env _ q hreg) (hEq ▸ hmem)
  · intro hEq
    have hexc := runMore_excludes env (Rev1.loadInitialPage env st).1 n
      (Rev1.loadInitialPage env st).2.1 page q hpage hqq
    have hstate : (Rev1.loadInitialPage env st).1.latestReleaseIds =
        (Rev1.initialLatest env st).2 := rfl
    rw [hstate] at hexc
    exact hexc (hEq ▸ hmem)

/-- A book record with no fields at all: its playlist id is the empty
string. -/
def bookEmptyC6 : BookRec :=
  { id := none, title := none, url_librivox := none, coverart_thumbnail := none,
    coverart_jpg := none, authors := [], sections := none }

def stC6 : Rev1.State := { audiobookDetails := [], authors := [], latestReleaseIds := [] }

/-- Latest releases and the first catalog page each contain one such
id-less record. -/
def envC6 : Rev1.HomeEnv :=
  { latest := { isOk := true, code := 200, body := some [some bookEmptyC6] }
    all := fun u =>
      if u = Rev1.allUrl Rev1.pageSize 0 then
        { isOk := true, code := 200, body := some { books := some [some bookEmptyC6] } }
      else { isOk := false, code := 404, body := none } }

/-- Claim C6 (counterexample): a latest-release record without
`url_librivox` is surfaced (canonical id "") yet not added to the
dedup set, and an entry with the same canonical id "" is surfaced
again by the general-catalog segment of the same session -- the id
appears in both, violating the dedup invariant as stated. -/
theorem claim_C6_counterexample :
    ((Rev1.initialLatest envC6 stC6).1.map (Option.map (fun p => p.idv)) = [some ""]) ∧
    ((Rev1.initialLatest envC6 stC6).1.map (Option.map (fun p => p.name)) =
      [some "New: Unknown Title"]) ∧
    ((Rev1.initialRegular envC6 (Rev1.initialLatest envC6 stC6).2).map
       (Option.map (fun p => p.idv)) = [some ""]) ∧
    (Rev1.initialLatest envC6 stC6).2 = [] := by
  exact ⟨rfl, rfl, rfl, rfl⟩

/-- Distinct books for the C6 witness. -/
def bookXC6 : BookRec :=
  { id := none, title := some "X", url_librivox := some "https://librivox.org/x/",
    coverart_thumbnail := none, coverart_jpg := none, authors := [], sections := none }

def bookYC6 : BookRec :=
  { id := none, title := some "Y", url_librivox := some "https://librivox.org/y/",
    coverart_thumbnail := none, coverart_jpg := none, authors := [], sections := none }

def envC6w : Rev1.HomeEnv :=
  { latest := { isOk := true, code := 200, body := some [some bookXC6] }
    all := fun u =>
      if u = Rev1.allUrl Rev1.pageSize 0 then
        { isOk := true, code := 200, body := some { books := some [some bookYC6] } }
      else { isOk := false, code := 404, body := none } }

def emptyPlaylist : PlatformPlaylist :=
  { idv := "", authorName := "", authorUrl := "", authorThumb := "", name := "",
    thumbnail := "", videoCount := 0, url := "" }

def plC6w : PlatformPlaylist :=
  ((Rev1.initialLatest envC6w stC6).1.headD none).getD emptyPlaylist

def qC6w : PlatformPlaylist :=
  ((Rev1.initialRegular envC6w (Rev1.initialLatest envC6w stC6).2).headD none).getD
    emptyPlaylist

/-- Claim C6 (witness): the amended dedup theorem applied to a session
where the latest segment surfaces book X and the catalog page book Y:
their canonical ids differ. -/
theorem claim_C6_witness : qC6w.idv ≠ plC6w.idv :=
  claim_C6_amended envC6w stC6 0 plC6w qC6w (by decide) (by decide) (Or.inl (by decide))

end LibriVox
